import Mathlib

/-!
Verification development for the srctools BSP/vector library
(src/srctools/bsp.py and src/srctools/vec.py).

Python numbers are modelled exactly: machine floats appearing in pure
arithmetic are modelled as rationals (`ℚ`) or reals (`ℝ` where the code uses
transcendental functions); binary 32-bit floats read from or written to lump
data are kept as their raw little-endian bit patterns (IEEE decoding is a
bijection on patterns and no claim inspects the decoded numeric value).
Byte strings are `List Nat` with every element `< 256`.  Python exceptions
are modelled with `Except` and one constructor per raise site kind.
-/

namespace Srctools

/-- Byte strings: each element is a byte value 0..255. -/
abbrev Bytes := List Nat

/-- Property that every element of a byte list is an actual byte. -/
def isBytes (l : Bytes) : Prop := ∀ b ∈ l, b < 256

instance (l : Bytes) : Decidable (isBytes l) := by
  unfold isBytes; infer_instance

/-! ### Vec (`src/srctools/vec.py`, template `_VEC_MULDIV_TEMP` and
`Vec.__divmod__`)

Components are Python floats, modelled as exact rationals.  The
multiplicative/divisive operators are generated from `_VEC_MULDIV_TEMP`:
a `Vec` right operand raises `TypeError("Cannot <op> 2 Vectors.")` (the
spec's `AmbiguousVectorProduct` kind); a scalar is applied componentwise.
Python float `/`, `//`, `%` and `divmod` raise `ZeroDivisionError` on a
zero divisor. -/

/-- A 3D vector, componentwise over exact rationals. -/
structure Vec where
  x : ℚ
  y : ℚ
  z : ℚ
deriving DecidableEq, Repr

/-- Error kinds raised by Vec arithmetic. -/
inductive VecErr
  /-- TypeError: Cannot multiply/divide/floor-divide/modulus 2 Vectors. -/
  | ambiguousVectorProduct
  /-- Python ZeroDivisionError from a zero scalar divisor. -/
  | zeroDivision
deriving DecidableEq, Repr

/-- The right operand of a Vec arithmetic operator: another Vec or a scalar. -/
inductive VecOperand
  | vec (w : Vec)
  | scalar (s : ℚ)
deriving DecidableEq, Repr

/-- Python float floor division `x // s` (exact model): the floor of the true
quotient, as a number. -/
def pyFloorDiv (x s : ℚ) : ℚ := (⌊x / s⌋ : ℤ)

/-- Python float modulus `x % s` (exact model): `x - s * ⌊x / s⌋`, which takes
the sign of the divisor. -/
def pyFloatMod (x s : ℚ) : ℚ := x - s * (⌊x / s⌋ : ℤ)

/-- Embedding of `Vec.__mul__` from `_VEC_MULDIV_TEMP` with `op = *`. -/
def Vec.mul (v : Vec) (other : VecOperand) : Except VecErr Vec :=
  match other with
  | .vec _ => .error .ambiguousVectorProduct
  | .scalar s => .ok ⟨v.x * s, v.y * s, v.z * s⟩

/-- Embedding of `Vec.__truediv__` from `_VEC_MULDIV_TEMP` with `op = /`. -/
def Vec.truediv (v : Vec) (other : VecOperand) : Except VecErr Vec :=
  match other with
  | .vec _ => .error .ambiguousVectorProduct
  | .scalar s =>
    if s = 0 then .error .zeroDivision
    else .ok ⟨v.x / s, v.y / s, v.z / s⟩

/-- Embedding of `Vec.__floordiv__` from `_VEC_MULDIV_TEMP` with `op = //`. -/
def Vec.floordiv (v : Vec) (other : VecOperand) : Except VecErr Vec :=
  match other with
  | .vec _ => .error .ambiguousVectorProduct
  | .scalar s =>
    if s = 0 then .error .zeroDivision
    else .ok ⟨pyFloorDiv v.x s, pyFloorDiv v.y s, pyFloorDiv v.z s⟩

/-- Embedding of `Vec.__mod__` from `_VEC_MULDIV_TEMP` with `op = %`. -/
def Vec.mod (v : Vec) (other : VecOperand) : Except VecErr Vec :=
  match other with
  | .vec _ => .error .ambiguousVectorProduct
  | .scalar s =>
    if s = 0 then .error .zeroDivision
    else .ok ⟨pyFloatMod v.x s, pyFloatMod v.y s, pyFloatMod v.z s⟩

/-- Embedding of `Vec.__divmod__` (vec.py lines 591-603): raises on a Vec operand, else
pairs the componentwise floor quotient and remainder. -/
def Vec.divmod (v : Vec) (other : VecOperand) : Except VecErr (Vec × Vec) :=
  match other with
  | .vec _ => .error .ambiguousVectorProduct
  | .scalar s =>
    if s = 0 then .error .zeroDivision
    else .ok (⟨pyFloorDiv v.x s, pyFloorDiv v.y s, pyFloorDiv v.z s⟩,
              ⟨pyFloatMod v.x s, pyFloatMod v.y s, pyFloatMod v.z s⟩)

/-! ### Angle and Matrix (`src/srctools/vec.py`, classes `Angle` and `Matrix`)

Components are Python floats, modelled as reals because the rotation code
uses `math.sin`, `math.cos` and `math.atan2`.  Every mutation of an `Angle`
normalises each component with the double modulus `x % 360 % 360`
(vec.py lines 1277-1284, 1311, 1320, 1329, 1450-1454, and indirectly via the
constructor in `__mul__`, `__rmul__` and `Matrix.to_angle`). -/

noncomputable section

/-- Python float modulus `x % m` over the reals: `x - m * ⌊x / m⌋`. -/
def pyModR (x m : ℝ) : ℝ := x - m * (⌊x / m⌋ : ℤ)

/-- The normalisation applied by every Angle mutation: `x % 360 % 360`. -/
def angNorm (x : ℝ) : ℝ := pyModR (pyModR x 360) 360

/-- A pitch/yaw/roll Euler angle in degrees (class `Angle`). -/
structure Angle where
  pitch : ℝ
  yaw : ℝ
  roll : ℝ

/-- Embedding of `Angle.__init__` (vec.py lines 1276-1279): every component is reduced by
the double modulus. -/
def Angle.new (pitch yaw roll : ℝ) : Angle :=
  ⟨angNorm pitch, angNorm yaw, angNorm roll⟩

/-- The `pitch` property setter (vec.py line 1311). -/
def Angle.setPitch (a : Angle) (v : ℝ) : Angle := { a with pitch := angNorm v }

/-- The `yaw` property setter (vec.py line 1320). -/
def Angle.setYaw (a : Angle) (v : ℝ) : Angle := { a with yaw := angNorm v }

/-- The `roll` property setter (vec.py line 1329). -/
def Angle.setRoll (a : Angle) (v : ℝ) : Angle := { a with roll := angNorm v }

/-- The valid indices accepted by `Angle.__setitem__`; the aliases
0/p/pit/pitch, 1/y/yaw and 2/r/rol/roll collapse to one constructor each
(an invalid index raises KeyError and mutates nothing). -/
inductive AngleIx
  | pitchIx
  | yawIx
  | rollIx
deriving DecidableEq, Repr

/-- Embedding of `Angle.__setitem__` (vec.py lines 1449-1454). -/
def Angle.setItem (a : Angle) (ix : AngleIx) (v : ℝ) : Angle :=
  match ix with
  | .pitchIx => { a with pitch := angNorm v }
  | .yawIx => { a with yaw := angNorm v }
  | .rollIx => { a with roll := angNorm v }

/-- Embedding of `Angle.__mul__` (vec.py lines 1463-1471): scales each component, the
result being normalised by the `Angle` constructor. -/
def Angle.mulScalar (a : Angle) (s : ℝ) : Angle :=
  Angle.new (a.pitch * s) (a.yaw * s) (a.roll * s)

/-- A 3x3 rotation matrix (class `Matrix`), row-major fields as in the
source's `aa .. cc` slots. -/
structure Matrix3 where
  aa : ℝ
  ab : ℝ
  ac : ℝ
  ba : ℝ
  bb : ℝ
  bc : ℝ
  ca : ℝ
  cb : ℝ
  cc : ℝ

/-- Embedding of `Matrix.__init__`: the identity transform. -/
def Matrix3.identity : Matrix3 := ⟨1, 0, 0, 0, 1, 0, 0, 0, 1⟩

/-- Embedding of `math.radians`. -/
def radians (d : ℝ) : ℝ := d * Real.pi / 180

/-- Embedding of `math.degrees`. -/
def degrees (r : ℝ) : ℝ := r * 180 / Real.pi

/-- Embedding of `math.atan2` over the reals (standard quadrant-aware arctangent; the
Python function's signed-zero distinctions do not exist in `ℝ`). -/
def atan2 (y x : ℝ) : ℝ :=
  if 0 < x then Real.arctan (y / x)
  else if x < 0 then
    (if y < 0 then Real.arctan (y / x) - Real.pi else Real.arctan (y / x) + Real.pi)
  else
    (if 0 < y then Real.pi / 2 else if y < 0 then -(Real.pi / 2) else 0)

/-- Embedding of `Matrix.from_angle` (vec.py lines 1040-1071). -/
def Matrix3.fromAngle (a : Angle) : Matrix3 :=
  let cos_p := Real.cos (radians a.pitch)
  let sin_p := Real.sin (radians a.pitch)
  let sin_y := Real.sin (radians a.yaw)
  let cos_y := Real.cos (radians a.yaw)
  let cos_r := Real.cos (radians a.roll)
  let sin_r := Real.sin (radians a.roll)
  { aa := cos_p * cos_y
    ab := cos_p * sin_y
    ac := -sin_p
    ba := sin_p * (sin_r * cos_y) - cos_r * sin_y
    bb := sin_p * (sin_r * sin_y) + cos_r * cos_y
    bc := sin_r * cos_p
    ca := sin_p * (cos_r * cos_y) + sin_r * sin_y
    cb := sin_p * (cos_r * sin_y) - sin_r * cos_y
    cc := cos_r * cos_p }

/-- Embedding of `Matrix._mat_mul` (vec.py lines 1221-1241): `self` becomes
`self * other` in the source's row convention. -/
def Matrix3.matMul (s o : Matrix3) : Matrix3 :=
  { aa := s.aa * o.aa + s.ab * o.ba + s.ac * o.ca
    ab := s.aa * o.ab + s.ab * o.bb + s.ac * o.cb
    ac := s.aa * o.ac + s.ab * o.bc + s.ac * o.cc
    ba := s.ba * o.aa + s.bb * o.ba + s.bc * o.ca
    bb := s.ba * o.ab + s.bb * o.bb + s.bc * o.cb
    bc := s.ba * o.ac + s.bb * o.bc + s.bc * o.cc
    ca := s.ca * o.aa + s.cb * o.ba + s.cc * o.ca
    cb := s.ca * o.ab + s.cb * o.bb + s.cc * o.cb
    cc := s.ca * o.ac + s.cb * o.bc + s.cc * o.cc }

/-- Embedding of `Matrix.to_angle` (vec.py lines 1085-1112); the returned `Angle` is
normalised by the constructor. -/
def Matrix3.toAngle (m : Matrix3) : Angle :=
  let horiz_dist := Real.sqrt (m.aa ^ 2 + m.ab ^ 2)
  if horiz_dist > 0.001 then
    Angle.new (degrees (atan2 (-m.ac) horiz_dist))
      (degrees (atan2 m.ab m.aa))
      (degrees (atan2 m.bc m.cc))
  else
    Angle.new (degrees (atan2 (-m.ac) horiz_dist))
      (degrees (atan2 (-m.ba) m.bb))
      0

/-- Embedding of `Angle._rotate_angle` (vec.py lines 1517-1525): rotate `target` by
`self` via matrices. -/
def Angle.rotateAngle (self target : Angle) : Angle :=
  let mat := Matrix3.identity
  let mat := mat.matMul (Matrix3.fromAngle target)
  let mat := mat.matMul (Matrix3.fromAngle self)
  mat.toAngle

/-- Embedding of `Angle.__matmul__` (vec.py lines 1493-1499): `self @ other` is
`other._rotate_angle(self)`. -/
def Angle.matmul (self other : Angle) : Angle :=
  other.rotateAngle self

/-- The Angle invariant: each component lies in `[0, 360)`. -/
def Angle.normalized (a : Angle) : Prop :=
  (0 ≤ a.pitch ∧ a.pitch < 360) ∧ (0 ≤ a.yaw ∧ a.yaw < 360) ∧
    (0 ≤ a.roll ∧ a.roll < 360)

end

/-! ### Entity text codec (`BSP.read_ent_data`, bsp.py lines 436-516)

The lump is ASCII text processed line by line over the raw bytes. -/

/-- Embedding of `bytes.splitlines` on the raw lump: lines are separated by LF, CR or
CRLF, with no trailing empty line for a terminal separator. -/
def splitlinesAux : Bytes → Bytes → List Bytes
  | [], acc => if acc.isEmpty then [] else [acc.reverse]
  | 13 :: 10 :: rest, acc => acc.reverse :: splitlinesAux rest []
  | 13 :: b :: rest, acc => acc.reverse :: splitlinesAux (b :: rest) []
  | [13], acc => acc.reverse :: splitlinesAux [] []
  | 10 :: rest, acc => acc.reverse :: splitlinesAux rest []
  | b :: rest, acc => splitlinesAux rest (b :: acc)

/-- Embedding of `bytes.splitlines`. -/
def pySplitlines (data : Bytes) : List Bytes := splitlinesAux data []

/-- Index of the leftmost occurrence of `sep` in `l`, if any. -/
def findSub (sep : Bytes) : Bytes → Option Nat
  | [] => if sep.isEmpty then some 0 else none
  | b :: rest =>
    if sep.isPrefixOf (b :: rest) then some 0
    else (findSub sep rest).map (· + 1)

/-- Embedding of `bytes.split(sep, maxsplit)` for a non-empty separator. -/
def pySplit (sep : Bytes) (maxs : Nat) (l : Bytes) : List Bytes :=
  match maxs with
  | 0 => [l]
  | m + 1 =>
    match findSub sep l with
    | none => [l]
    | some i => l.take i :: pySplit sep m (l.drop (i + sep.length))

/-- Embedding of the replace call that rewrites each escaped quote (backslash then quote) to a bare quote: leftmost, non-overlapping. -/
def replaceEsc : Bytes → Bytes
  | [] => []
  | 92 :: 34 :: rest => 34 :: replaceEsc rest
  | b :: rest => b :: replaceEsc rest

/-- The `decode('ascii')` success condition. -/
def allAscii (l : Bytes) : Bool := l.all (· < 128)

/-- One decoded output connection.  Field values are kept as the raw text
fields of the record. -/
structure OutputRec where
  name : Bytes
  target : Bytes
  inp : Bytes
  params : Bytes
  delay : Bytes
  times : Bytes
deriving DecidableEq, Repr

/-- An entity: ordered key/value pairs plus output connections.
Modelled from the spec: `srctools.vmf.Entity` is not under src/; per section
4.3 an entity is a sequence of key/values and outputs. -/
structure Ent where
  keys : List (Bytes × Bytes)
  outs : List OutputRec
deriving DecidableEq, Repr

/-- Python dict assignment `d[k] = v` on an insertion-ordered mapping:
replace in place if the key exists, else append. -/
def dictSet : List (Bytes × Bytes) → Bytes → Bytes → List (Bytes × Bytes)
  | [], k, v => [(k, v)]
  | (k0, v0) :: rest, k, v =>
    if k0 = k then (k, v) :: rest else (k0, v0) :: dictSet rest k v

/-- Entity key lookup with the empty string as default.
Modelled from the spec: `srctools.vmf.Entity.__getitem__` is not under
src/; a missing key yields an empty value so a spawn without a classname
fails the worldspawn test. -/
def entGetDefault (e : Ent) (k : Bytes) : Bytes :=
  match e.keys.find? (fun p => p.1 = k) with
  | some p => p.2
  | none => []

/-- The parsed entity lump.
Modelled from the spec: `srctools.vmf.VMF` is not under src/; it holds the
worldspawn, the other entities in order, and the map version. -/
structure VMF where
  spawn : Ent
  ents : List Ent
  mapVer : Int
deriving DecidableEq, Repr

/-- Decimal digit test on a byte. -/
def isDigitByte (b : Nat) : Bool := 48 ≤ b && b ≤ 57

/-- Value of a string of decimal digit bytes. -/
def digitsToNat (l : Bytes) : Nat :=
  l.foldl (fun a b => a * 10 + (b - 48)) 0

/-- Integer conversion with fallback.
Modelled from the spec: `srctools.conv_int` is not under src/; it converts
decimal text (with optional sign) and returns the default otherwise. -/
def convInt (l : Bytes) (dft : Int) : Int :=
  match l with
  | 45 :: rest =>
    if !rest.isEmpty && rest.all isDigitByte then -(digitsToNat rest : Int) else dft
  | _ =>
    if !l.isEmpty && l.all isDigitByte then (digitsToNat l : Int) else dft

/-- Integer literal test (optional minus sign, then digits). -/
def isIntLit (l : Bytes) : Bool :=
  match l with
  | 45 :: rest => !rest.isEmpty && rest.all isDigitByte
  | _ => !l.isEmpty && l.all isDigitByte

/-- Decimal number literal test (optional minus sign, digits with at most
one decimal point). -/
def isNumLit (l : Bytes) : Bool :=
  let core := match l with | 45 :: rest => rest | _ => l
  core.any isDigitByte && core.all (fun b => isDigitByte b || b = 46) &&
    core.count 46 ≤ 1

/-- Output parsing.
Modelled from the spec: `srctools.vmf.Output.parse` is not under src/;
per section 4.3 an output value is a comma- or 0x1D-separated
`target,input,parameter,delay,times_to_fire` record, and parsing fails
(a ValueError) unless there are exactly five fields whose final two are
numbers. -/
def outputParse (name value : Bytes) : Option OutputRec :=
  let sep : Nat := if 29 ∈ value then 29 else 44
  match pySplit [sep] value.length value with
  | [t, i, p, d, n] =>
    if isNumLit d && isIntLit n then some ⟨name, t, i, p, d, n⟩ else none
  | _ => none

/-- Error kinds raised by `read_ent_data` (all ValueError in the source). -/
inductive EntErr
  /-- Two levels of nesting. -/
  | nested
  /-- Too many closing brackets. -/
  | tooManyClosing
  /-- No worldspawn entity. -/
  | noWorldspawn
  /-- Last entity did not end before the NUL line. -/
  | unclosedAtNul
  /-- Keyvalue outside brackets. -/
  | kvOutsideBrackets
  /-- The `"key" "value"` split did not yield exactly two parts. -/
  | kvUnpack
  /-- A decode('ascii') failure. -/
  | nonAscii
  /-- The `Output.parse` call failed in the unambiguous-separator branch. -/
  | outputParseFailed
deriving DecidableEq, Repr

/-- The loop state of `read_ent_data`: the spawn entity, the completed
entities, whether the first entity was opened, and the entity currently
open (tagged with whether it is the spawn). -/
structure EntState where
  spawn : Ent
  ents : List Ent
  seenSpawn : Bool
  cur : Option (Bool × Ent)
deriving DecidableEq, Repr

/-- One loop step either continues with a new state or returns the VMF
(the bare-NUL line does an early `return`). -/
inductive EntStep
  | cont (st : EntState)
  | done (vmf : VMF)
deriving DecidableEq, Repr

/-- Byte text of `classname`. -/
def classnameBytes : Bytes := [99, 108, 97, 115, 115, 110, 97, 109, 101]

/-- Byte text of `worldspawn`. -/
def worldspawnBytes : Bytes := [119, 111, 114, 108, 100, 115, 112, 97, 119, 110]

/-- Byte text of `mapversion`. -/
def mapversionBytes : Bytes :=
  [109, 97, 112, 118, 101, 114, 115, 105, 111, 110]

/-- The separator `b'" "'` used to split a keyvalue line. -/
def kvSepBytes : Bytes := [34, 32, 34]

/-- The body of the `read_ent_data` line loop (bsp.py lines 450-510). -/
def processLine (st : EntState) (line : Bytes) : Except EntErr EntStep :=
  if line = [123] then
    match st.cur with
    | some _ => .error .nested
    | none =>
      if st.seenSpawn then
        .ok (.cont { st with cur := some (false, ⟨[], []⟩) })
      else
        .ok (.cont { st with seenSpawn := true, cur := some (true, st.spawn) })
  else if line = [125] then
    match st.cur with
    | none => .error .tooManyClosing
    | some (isSpawn, e) =>
      if isSpawn then
        if entGetDefault e classnameBytes = worldspawnBytes then
          .ok (.cont { st with spawn := e, cur := none })
        else .error .noWorldspawn
      else .ok (.cont { st with ents := st.ents ++ [e], cur := none })
  else if line = [0] then
    match st.cur with
    | some _ => .error .unclosedAtNul
    | none => .ok (.done ⟨st.spawn, st.ents, 0⟩)
  else
    match st.cur with
    | none => .error .kvOutsideBrackets
    | some (isSpawn, e) =>
      match pySplit kvSepBytes 2 line with
      | [key, value] =>
        let dk := key.drop 1
        let dv := replaceEsc value.dropLast
        if allAscii dk && allAscii dv then
          if 27 ∈ value then
            match outputParse dk dv with
            | some o =>
              .ok (.cont { st with cur := some (isSpawn, { e with outs := e.outs ++ [o] }) })
            | none => .error .outputParseFailed
          else if value.count 44 = 4 then
            match outputParse dk dv with
            | some o =>
              .ok (.cont { st with cur := some (isSpawn, { e with outs := e.outs ++ [o] }) })
            | none =>
              .ok (.cont { st with cur := some (isSpawn, { e with keys := dictSet e.keys dk dv }) })
          else
            .ok (.cont { st with cur := some (isSpawn, { e with keys := dictSet e.keys dk dv }) })
        else .error .nonAscii
      | _ => .error .kvUnpack

/-- Falling off the end of the loop: return the VMF, with `map_ver` set
from the spawn's `mapversion` key (bsp.py line 514). -/
def finishVMF (st : EntState) : VMF :=
  ⟨st.spawn, st.ents, convInt (entGetDefault st.spawn mapversionBytes) 0⟩

/-- Run the line loop, honouring the early return of the bare-NUL line. -/
def runLines (st : EntState) : List Bytes → Except EntErr VMF
  | [] => .ok (finishVMF st)
  | line :: rest =>
    match processLine st line with
    | .error e => .error e
    | .ok (.done v) => .ok v
    | .ok (.cont st2) => runLines st2 rest

/-- The initial state: a fresh VMF with an empty spawn entity. -/
def initEntState : EntState := ⟨⟨[], []⟩, [], false, none⟩

/-- Embedding of `BSP.read_ent_data` applied to the entity lump bytes. -/
def readEntData (data : Bytes) : Except EntErr VMF :=
  runLines initEntState (pySplitlines data)

/-! ### Container codec (`BSP.read`, `BSP.save`, bsp.py lines 204-351)

The file is a byte list; seeking is indexing.  `struct_read` and
`DeferredWrites` come from `srctools.binformat`, which is not under src/:
they are modelled from the spec (section 4.1) as exact-size little-endian
reads that fail on short data, and as back-patched offset/length fields
whose final bytes we compute directly. -/

/-- Little-endian bytes of a 16-bit value. -/
def le16 (n : Nat) : Bytes := [n % 256, n / 256 % 256]

/-- Little-endian bytes of a 32-bit value. -/
def le32 (n : Nat) : Bytes :=
  [n % 256, n / 256 % 256, n / 65536 % 256, n / 16777216 % 256]

/-- Value of little-endian bytes. -/
def bytesToNatLE (b : Bytes) : Nat := b.foldr (fun x a => x + 256 * a) 0

/-- Two's-complement reading of an unsigned 32-bit value. -/
def toSigned32 (u : Nat) : Int :=
  if u < 2147483648 then (u : Int) else (u : Int) - 4294967296

/-- Two's-complement reading of an unsigned 16-bit value. -/
def toSigned16 (u : Nat) : Int :=
  if u < 32768 then (u : Int) else (u : Int) - 65536

/-- Exactly `n` bytes of `l` starting at `pos`, if available. -/
def takeExact (l : Bytes) (pos n : Nat) : Option Bytes :=
  if pos + n ≤ l.length then some ((l.drop pos).take n) else none

/-- Error kinds raised while reading a BSP. -/
inductive ReadErr
  /-- The magic assertion: Not a BSP file. -/
  | notBspFile
  /-- The version assertion: Different BSP version. -/
  | versionMismatch
  /-- struct.error: a short read or an out-of-bounds unpack_from. -/
  | structError
  /-- An invalid seek or read size on the underlying file. -/
  | ioError
deriving DecidableEq, Repr

/-- Unsigned little-endian field read of `n` bytes. -/
def readU (l : Bytes) (pos n : Nat) : Except ReadErr Nat :=
  match takeExact l pos n with
  | some b => .ok (bytesToNatLE b)
  | none => .error .structError

/-- Signed 32-bit little-endian field read. -/
def readI32 (l : Bytes) (pos : Nat) : Except ReadErr Int :=
  (readU l pos 4).map toSigned32

/-- Unsigned 16-bit little-endian field read. -/
def readU16 (l : Bytes) (pos : Nat) : Except ReadErr Nat := readU l pos 2

/-- Embedding of `file.seek(off)` followed by `file.read(len)`: a negative seek target
or a read size below -1 raises; size -1 reads to the end; otherwise at
most `len` bytes are returned. -/
def fileRead (file : Bytes) (off len : Int) : Except ReadErr Bytes :=
  if off < 0 then .error .ioError
  else if len = -1 then .ok (file.drop off.toNat)
  else if len < 0 then .error .ioError
  else .ok ((file.drop off.toNat).take len.toNat)

/-- The named file versions (enum `VERSIONS`); aliases with equal values
collapse to one constructor per distinct value. -/
inductive VERSIONS
  | VER_17
  | VER_18
  | VER_19
  | VER_20
  | VER_21
  | VER_22
  | CONTAGION
  | VER_29
  | DESOLATION
deriving DecidableEq, Repr

/-- The integer value of each named version. -/
def VERSIONS.value : VERSIONS → Int
  | .VER_17 => 17
  | .VER_18 => 18
  | .VER_19 => 19
  | .VER_20 => 20
  | .VER_21 => 21
  | .VER_22 => 22
  | .CONTAGION => 23
  | .VER_29 => 29
  | .DESOLATION => 42

/-- Value lookup `VERSIONS(n)`, or none when `n` is not a member value. -/
def versionOfInt (n : Int) : Option VERSIONS :=
  if n = 17 then some .VER_17
  else if n = 18 then some .VER_18
  else if n = 19 then some .VER_19
  else if n = 20 then some .VER_20
  else if n = 21 then some .VER_21
  else if n = 22 then some .VER_22
  else if n = 23 then some .CONTAGION
  else if n = 29 then some .VER_29
  else if n = 42 then some .DESOLATION
  else none

/-- The `self.version` attribute: a `VERSIONS` member or a plain integer. -/
inductive BSPVersion
  | known (v : VERSIONS)
  | raw (n : Int)
deriving DecidableEq, Repr

/-- Version adoption in `BSP.read` (bsp.py lines 226-230): fall back to the
plain integer when the value is not in the enum. -/
def adoptVersion (n : Int) : BSPVersion :=
  match versionOfInt n with
  | some v => .known v
  | none => .raw n

/-- The integer written out for a version (`BSP.save` lines 296-299). -/
def bspVersionValue : BSPVersion → Int
  | .known v => v.value
  | .raw n => n

/-- One lump (class `Lump`): per-lump version, 4 ident bytes, payload.
The lump id is the position in the 64-entry list. -/
structure LumpRec where
  version : Int
  ident : List Nat
  data : Bytes
deriving DecidableEq, Repr

/-- One game lump (class `GameLump`). -/
structure GameLumpRec where
  id : Bytes
  flags : Nat
  version : Nat
  data : Bytes
deriving DecidableEq, Repr

/-- The in-memory BSP (class `BSP`): version, the 64 lumps in id order,
the map revision and the ordered game-lump mapping. -/
structure BSPState where
  version : BSPVersion
  lumps : List LumpRec
  mapRevision : Int
  gameLumps : List GameLumpRec
deriving DecidableEq, Repr

/-- Run `f 0, f 1, ..., f (n-1)` collecting the results in order. -/
def exceptMapRange {ε α : Type} (f : Nat → Except ε α) : Nat → Except ε (List α)
  | 0 => .ok []
  | k + 1 => do
    let xs ← exceptMapRange f k
    let x ← f k
    .ok (xs ++ [x])

/-- Map a fallible function over a list, failing on the first error. -/
def exceptMapM {ε α β : Type} (f : α → Except ε β) : List α → Except ε (List β)
  | [] => .ok []
  | a :: rest => do
    let b ← f a
    let bs ← exceptMapM f rest
    .ok (b :: bs)

/-- The index entry for lump `i`: 16 bytes `(offset, length, version, ident)`
at position `8 + 16 i` (format `HEADER_LUMP = '<3i4s'`). -/
def readDirEntry (file : Bytes) (i : Nat) : Except ReadErr (Int × Int × Int × Bytes) := do
  let pos := 8 + 16 * i
  let off ← readI32 file pos
  let len ← readI32 file (pos + 4)
  let ver ← readI32 file (pos + 8)
  match takeExact file (pos + 12) 4 with
  | some id4 => .ok (off, len, ver, id4)
  | none => .error .structError

/-- Embedding of `GameLump.ST.unpack_from(buf, off)` with format `'<4s HH ii'`. -/
def parseGameLumpEntryRaw (buf : Bytes) (off : Nat) :
    Except ReadErr (Bytes × Nat × Nat × Int × Int) := do
  match takeExact buf off 4 with
  | none => .error .structError
  | some id4 => do
    let flags ← readU16 buf (off + 4)
    let ver ← readU16 buf (off + 6)
    let foff ← readI32 buf (off + 8)
    let flen ← readI32 buf (off + 12)
    .ok (id4, flags, ver, foff, flen)

/-- One iteration of the game-lump loop (bsp.py lines 262-282): decode the
directory entry, seek and read the payload, and reverse the stored id. -/
def readGameLump (file buf : Bytes) (off : Nat) : Except ReadErr GameLumpRec := do
  let (id4, flags, ver, foff, flen) ← parseGameLumpEntryRaw buf off
  let data ← fileRead file foff flen
  .ok ⟨id4.reverse, flags, ver, data⟩

/-- Python dict assignment for the game-lump mapping: replace in place on an
existing id, else append. -/
def glDictInsert (l : List GameLumpRec) (g : GameLumpRec) : List GameLumpRec :=
  match l with
  | [] => [g]
  | g0 :: rest => if g0.id = g.id then g :: rest else g0 :: glDictInsert rest g

/-- The game-lump read loop over `count` 16-byte entries starting at `off`. -/
def readGameLumpsAux (file buf : Bytes) :
    Nat → Nat → List GameLumpRec → Except ReadErr (List GameLumpRec)
  | 0, _, acc => .ok acc
  | k + 1, off, acc => do
    let g ← readGameLump file buf off
    readGameLumpsAux file buf k (off + 16) (glDictInsert acc g)

/-- The magic bytes `b'VBSP'`. -/
def BSP_MAGIC : Bytes := [86, 66, 83, 80]

/-- Embedding of `BSP.read` (bsp.py lines 216-284) on the whole file, with the
constructor's optional pre-declared version. -/
def bspRead (expected : Option BSPVersion) (file : Bytes) :
    Except ReadErr BSPState := do
  let magic ← match takeExact file 0 4 with
    | some m => Except.ok m
    | none => Except.error ReadErr.structError
  if magic ≠ BSP_MAGIC then .error .notBspFile
  else do
  let vInt ← readI32 file 4
  let version ← match expected with
    | none => Except.ok (adoptVersion vInt)
    | some e =>
      if vInt = bspVersionValue e then Except.ok e
      else Except.error ReadErr.versionMismatch
  let entries ← exceptMapRange (readDirEntry file) 64
  let mapRev ← readI32 file 1032
  let lumps ← exceptMapRange (fun i => do
    match entries.get? i with
    | some (off, len, ver, id4) => do
      let data ← fileRead file off len
      Except.ok (⟨ver, id4.map id, data⟩ : LumpRec)
    | none => Except.error ReadErr.structError) 64
  match lumps.get? 35 with
  | none => .error .structError
  | some gl => do
    if gl.data.length < 4 then .error .structError
    else do
    let cnt ← readI32 gl.data 0
    let gls ←
      if cnt ≤ 0 then Except.ok []
      else readGameLumpsAux file gl.data cnt.toNat 4 []
    .ok ⟨version, lumps.set 35 { gl with data := [] }, mapRev, gls⟩

/-- Error kinds raised while saving. -/
inductive WriteErr
  /-- struct.error: a value out of range for its format. -/
  | structError
  /-- ValueError from `bytes()` on an ident entry outside 0..255. -/
  | valueError
  /-- A missing lump entry. -/
  | keyError
deriving DecidableEq, Repr

/-- Embedding of the pack of a signed little-endian 32-bit value. -/
def packI32 (i : Int) : Except WriteErr Bytes :=
  if -2147483648 ≤ i ∧ i < 2147483648 then .ok (le32 ((i % 4294967296).toNat))
  else .error .structError

/-- Embedding of the pack of an unsigned little-endian 16-bit value. -/
def packU16 (n : Nat) : Except WriteErr Bytes :=
  if n < 65536 then .ok (le16 n) else .error .structError

/-- Embedding of the 4-byte string pack: truncate or null-pad to 4 bytes. -/
def pack4s (b : Bytes) : Bytes := b.take 4 ++ List.replicate (4 - b.length) 0

/-- Embedding of the ident serialisation: fails when an entry is not a byte, then packs 4 bytes. -/
def identBytes (l : List Nat) : Except WriteErr Bytes :=
  if l.all (· < 256) then .ok (pack4s l) else .error .valueError

/-- The fixed lump write order: ids 0..63 with `PAKFILE` (40) moved last
(bsp.py lines 171-173). -/
def LUMP_WRITE_ORDER : List Nat := (List.range 64).filter (· ≠ 40) ++ [40]

/-- One game-lump directory entry as emitted by `BSP.save` (bsp.py lines
326-334): reversed id, flags, version, the deferred absolute data offset,
and the data length. -/
def packGameLumpDirEntry (g : GameLumpRec) (off : Nat) : Except WriteErr Bytes := do
  let f ← packU16 g.flags
  let v ← packU16 g.version
  let o ← packI32 (off : Int)
  let n ← packI32 (g.data.length : Int)
  .ok (pack4s g.id.reverse ++ f ++ v ++ o ++ n)

/-- Absolute offsets of the game-lump data blocks laid out from `start`. -/
def glDataOffsets (start : Nat) : List GameLumpRec → List Nat
  | [] => []
  | g :: rest => start :: glDataOffsets (start + g.data.length) rest

/-- The full `GAME_LUMP` payload written at absolute position `pos`:
the count, the directory entries (offsets back-patched), then the data
blocks (bsp.py lines 323-339). -/
def writeGameLumpSection (pos : Nat) (gls : List GameLumpRec) :
    Except WriteErr Bytes := do
  let cnt ← packI32 (gls.length : Int)
  let dir ← exceptMapM (fun p => packGameLumpDirEntry p.1 p.2)
    (gls.zip (glDataOffsets (pos + 4 + 16 * gls.length) gls))
  .ok (cnt ++ dir.flatten ++ (gls.map (·.data)).flatten)

/-- The payload section of `BSP.save`, folded over the write order from
absolute position `pos`; returns the bytes and each lump's back-patched
`(id, offset, length)` directory data. -/
def buildPayload (b : BSPState) : List Nat → Nat → Except WriteErr (Bytes × List (Nat × Nat × Nat))
  | [], _ => .ok ([], [])
  | idx :: rest, pos =>
    match b.lumps.get? idx with
    | none => .error .keyError
    | some lump =>
      if idx = 35 then do
        let sec ← writeGameLumpSection pos b.gameLumps
        let (tailBytes, dir) ← buildPayload b rest (pos + sec.length)
        .ok (sec ++ tailBytes, (idx, pos, sec.length) :: dir)
      else do
        let (tailBytes, dir) ← buildPayload b rest (pos + lump.data.length)
        .ok (lump.data ++ tailBytes, (idx, pos, lump.data.length) :: dir)

/-- Look up a lump's patched (offset, length) pair. -/
def dirLookup (dir : List (Nat × Nat × Nat)) (i : Nat) : Nat × Nat :=
  match dir.find? (fun t => t.1 = i) with
  | some t => (t.2.1, t.2.2)
  | none => (0, 0)

/-- Embedding of `BSP.save` (bsp.py lines 286-351): header, 64 directory entries with
back-patched offsets and lengths, map revision, then the payloads in write
order.  The header is `8 + 64*16 + 4 = 1036` bytes, so payloads start at
absolute position 1036. -/
def bspSave (b : BSPState) : Except WriteErr Bytes := do
  if b.lumps.length ≠ 64 then .error .keyError
  else do
  let vbytes ← packI32 (bspVersionValue b.version)
  let (payload, dir) ← buildPayload b LUMP_WRITE_ORDER 1036
  let header ← exceptMapRange (fun i => do
    match b.lumps.get? i with
    | none => Except.error WriteErr.keyError
    | some lump => do
      let (off, len) := dirLookup dir i
      let ob ← packI32 (off : Int)
      let lb ← packI32 (len : Int)
      let verb ← packI32 lump.version
      let idb ← identBytes lump.ident
      Except.ok (ob ++ lb ++ verb ++ idb)) 64
  let revb ← packI32 b.mapRevision
  .ok (BSP_MAGIC ++ vbytes ++ header.flatten ++ revb ++ payload)

/-! ### Static-prop codec (`BSP.static_props`, bsp.py lines 546-674)

The 32-bit floats of a prop record never fail to decode and no claim
inspects their values, so they are kept as raw little-endian bit
patterns (`PropNum.bits`); the integer defaults assigned for absent
fields are kept as literals (`PropNum.lit`). -/

/-- A numeric prop field: a raw f32 pattern read from the lump, or the
literal default the source assigns when the field is absent. -/
inductive PropNum
  | bits (u : Nat)
  | lit (n : Int)
deriving DecidableEq, Repr

/-- Error kinds raised inside the prop decode loop. -/
inductive SPBodyErr
  /-- struct.error from a short read. -/
  | structError
  /-- IndexError from `model_dict[model_ind]`. -/
  | indexError
  /-- ValueError from `StaticPropFlags(flags)` on undefined bits. -/
  | flagError
  /-- UnicodeDecodeError from a non-ASCII model name. -/
  | nonAscii
deriving DecidableEq, Repr

/-- Error kinds raised by `BSP.static_props`. -/
inductive SPErr
  /-- No static prop lump. -/
  | noStaticLump
  /-- The spec's UnsupportedStaticPropVersion: version above 11 or below 4. -/
  | unsupportedStaticPropVersion
  /-- Any error raised by the decode body after the version check. -/
  | body (e : SPBodyErr)
deriving DecidableEq, Repr

/-- Embedding of `struct_read` on the prop lump: exactly `n` bytes from `pos`. -/
def spRead (data : Bytes) (pos n : Nat) : Except SPBodyErr (Bytes × Nat) :=
  if pos + n ≤ data.length then .ok ((data.drop pos).take n, pos + n)
  else .error .structError

/-- Signed 32-bit read on the prop lump. -/
def spReadI32 (data : Bytes) (pos : Nat) : Except SPBodyErr (Int × Nat) := do
  let (b, pos2) ← spRead data pos 4
  .ok (toSigned32 (bytesToNatLE b), pos2)

/-- Unsigned 16-bit read on the prop lump. -/
def spReadU16 (data : Bytes) (pos : Nat) : Except SPBodyErr (Nat × Nat) := do
  let (b, pos2) ← spRead data pos 2
  .ok (bytesToNatLE b, pos2)

/-- Embedding of the rstrip call that removes trailing NUL bytes. -/
def rstripZeros (l : Bytes) : Bytes := (l.reverse.dropWhile (· = 0)).reverse

/-- The model dictionary loop of `_read_static_props_models`: `n` 128-byte
null-padded ASCII names. -/
def readModelsAux (data : Bytes) : Nat → Nat → Except SPBodyErr (List Bytes × Nat)
  | 0, pos => .ok ([], pos)
  | k + 1, pos => do
    let (raw, pos2) ← spRead data pos 128
    let name := rstripZeros raw
    if allAscii name then do
      let (rest, pos3) ← readModelsAux data k pos2
      .ok (name :: rest, pos3)
    else .error .nonAscii

/-- Little-endian 16-bit list decode of the visleaf index block. -/
def u16List : Bytes → List Nat
  | b0 :: b1 :: rest => (b0 + 256 * b1) :: u16List rest
  | _ => []

/-- The defined `StaticPropFlags` bits: 0xFF plus NO_FLASHLIGHT (0x100)
and BOUNCED_LIGHTING (0x400). -/
def validFlagBits : Nat := 1535

/-- One prop record as decoded by the loop body of `static_props`. -/
structure StaticPropRec where
  model : Bytes
  originBits : Nat × Nat × Nat
  anglesBits : Nat × Nat × Nat
  scaling : PropNum
  visleafs : List Nat
  solidity : Nat
  flags : Nat
  skin : Int
  minFade : PropNum
  maxFade : PropNum
  lightingBits : Nat × Nat × Nat
  fadeScale : PropNum
  minDxLevel : Nat
  maxDxLevel : Nat
  minCpuLevel : Nat
  maxCpuLevel : Nat
  minGpuLevel : Nat
  maxGpuLevel : Nat
  tint : Nat × Nat × Nat
  renderfx : Nat
  disableOnXbox : Bool
deriving DecidableEq, Repr

/-- Three consecutive 32-bit patterns (`struct_read('fff', ...)`). -/
def take3F32 (b : Bytes) : Nat × Nat × Nat :=
  (bytesToNatLE (b.take 4), bytesToNatLE ((b.drop 4).take 4),
    bytesToNatLE ((b.drop 8).take 4))

/-- The per-prop decode (bsp.py lines 579-674) at game-lump version `v`. -/
def readProp (data : Bytes) (v : Nat) (models : List Bytes)
    (leaflist : List Nat) (pos : Nat) : Except SPBodyErr (StaticPropRec × Nat) := do
  let (ob, pos) ← spRead data pos 12
  let (ab, pos) ← spRead data pos 12
  let (modelInd, pos) ← spReadU16 data pos
  let (firstLeaf, pos) ← spReadU16 data pos
  let (leafCount, pos) ← spReadU16 data pos
  let (sol, pos) ← spRead data pos 1
  let (flg, pos) ← spRead data pos 1
  let (skin, pos) ← spReadI32 data pos
  let (minFadeB, pos) ← spRead data pos 4
  let (maxFadeB, pos) ← spRead data pos 4
  let modelName ← match models.get? modelInd with
    | some m => Except.ok m
    | none => Except.error SPBodyErr.indexError
  let visleafs := (leaflist.drop firstLeaf).take leafCount
  let (lb, pos) ← spRead data pos 12
  let (fadeScale, pos) ←
    if 5 ≤ v then do
      let (b, pos2) ← spRead data pos 4
      Except.ok (PropNum.bits (bytesToNatLE b), pos2)
    else Except.ok (PropNum.lit 1, pos)
  let (minDx, maxDx, pos) ←
    if v = 6 ∨ v = 7 then do
      let (a, pos2) ← spReadU16 data pos
      let (b, pos3) ← spReadU16 data pos2
      Except.ok (a, b, pos3)
    else Except.ok (0, 0, pos)
  let (minCpu, maxCpu, minGpu, maxGpu, pos) ←
    if 8 ≤ v then do
      let (b, pos2) ← spRead data pos 4
      Except.ok (b.getD 0 0, b.getD 1 0, b.getD 2 0, b.getD 3 0, pos2)
    else Except.ok (0, 0, 0, 0, pos)
  let (tint, renderfx, pos) ←
    if 7 ≤ v then do
      let (b, pos2) ← spRead data pos 4
      Except.ok ((b.getD 0 0, b.getD 1 0, b.getD 2 0), b.getD 3 0, pos2)
    else Except.ok ((255, 255, 255), 255, pos)
  let pos ←
    if 11 ≤ v then do
      let (_, pos2) ← spRead data pos 4
      Except.ok pos2
    else Except.ok pos
  let flags0 := flg.getD 0 0
  let (flags1, pos) ←
    if 10 ≤ v then do
      let (b, pos2) ← spRead data pos 4
      Except.ok (flags0 ||| (bytesToNatLE b <<< 8), pos2)
    else Except.ok (flags0, pos)
  if flags1 &&& validFlagBits = flags1 then do
    let (scaling, disable, pos) ←
      if 11 ≤ v then do
        let (b, pos2) ← spRead data pos 4
        Except.ok (PropNum.bits (bytesToNatLE b), false, pos2)
      else if 9 ≤ v then do
        let (b, pos2) ← spRead data pos 4
        Except.ok (PropNum.lit 1, b.getD 0 0 != 0, pos2)
      else Except.ok (PropNum.lit 1, false, pos)
    .ok (⟨modelName, take3F32 ob, take3F32 ab, scaling, visleafs,
      sol.getD 0 0, flags1, skin,
      PropNum.bits (bytesToNatLE minFadeB), PropNum.bits (bytesToNatLE maxFadeB),
      take3F32 lb, fadeScale, minDx, maxDx, minCpu, maxCpu, minGpu, maxGpu,
      tint, renderfx, disable⟩, pos)
  else .error .flagError

/-- The prop loop over `prop_count` records. -/
def readPropsAux (data : Bytes) (v : Nat) (models : List Bytes)
    (leaflist : List Nat) : Nat → Nat → Except SPBodyErr (List StaticPropRec)
  | 0, _ => .ok []
  | k + 1, pos => do
    let (r, pos2) ← readProp data v models leaflist pos
    let rest ← readPropsAux data v models leaflist k pos2
    .ok (r :: rest)

/-- The body of `static_props` after the version check: the model table,
the visleaf table and the prop records. -/
def decodeStaticPropsBody (v : Nat) (data : Bytes) :
    Except SPBodyErr (List StaticPropRec) := do
  let (dictNum, pos) ← spReadI32 data 0
  let (models, pos) ← readModelsAux data (if dictNum ≤ 0 then 0 else dictNum.toNat) pos
  let (leafCount, pos) ← spReadI32 data pos
  let (leafBytes, pos) ←
    if leafCount ≤ 0 then Except.ok (([] : Bytes), pos)
    else spRead data pos (2 * leafCount.toNat)
  let leaflist := u16List leafBytes
  let (propCount, pos) ← spReadI32 data pos
  readPropsAux data v models leaflist (if propCount ≤ 0 then 0 else propCount.toNat) pos

/-- The bytes of the id `b'sprp'`. -/
def sprpBytes : Bytes := [115, 112, 114, 112]

/-- Game-lump dictionary lookup by id. -/
def glDictGet (l : List GameLumpRec) (k : Bytes) : Option GameLumpRec :=
  l.find? (fun g => g.id = k)

/-- Embedding of `BSP.static_props` (bsp.py lines 555-674): the `sprp` lump must exist,
its version must be at most 11 and at least 4, then the body decodes. -/
def staticProps (gls : List GameLumpRec) : Except SPErr (List StaticPropRec) :=
  match glDictGet gls sprpBytes with
  | none => .error .noStaticLump
  | some g =>
    if g.version > 11 then .error .unsupportedStaticPropVersion
    else if g.version < 4 then .error .unsupportedStaticPropVersion
    else
      match decodeStaticPropsBody g.version g.data with
      | .ok l => .ok l
      | .error e => .error (.body e)

/-! ### Visibility-tree builder (`BSP.vis_tree`, bsp.py lines 776-832, and
classes `VisLeaf`, `VisTree`)

The mutable object graph is modelled as an arena: the node records in
order, the leaves in order, and for every node the pair of child
references installed by the linking loop.  A child reference is a tagged
index, exactly mirroring the sentinel rule of the file format. -/

/-- Error kinds raised by `vis_tree`. -/
inductive VisErr
  /-- struct.error: the lump length is not a multiple of the record size. -/
  | structError
  /-- IndexError from a list subscript. -/
  | indexError
  /-- AttributeError: `self.version.value` on a plain integer version. -/
  | attributeError
deriving DecidableEq, Repr

/-- Fuel-driven worker for `chunksExact` (the fuel is the list length, so
it never runs out for a positive chunk size). -/
def chunksExactAux (sz : Nat) : Nat → Bytes → List Bytes
  | 0, _ => []
  | _, [] => []
  | fuel + 1, b :: rest => (b :: rest).take sz :: chunksExactAux sz fuel ((b :: rest).drop sz)

/-- Split into consecutive chunks of `sz` bytes (the caller checks
divisibility). -/
def chunksExact (sz : Nat) (l : Bytes) : List Bytes := chunksExactAux sz l.length l

/-- Embedding of `struct.iter_unpack`: fails unless the data is a whole number of
records. -/
def iterUnpack (sz : Nat) (l : Bytes) : Except VisErr (List Bytes) :=
  if l.length % sz = 0 then .ok (chunksExact sz l) else .error .structError

/-- Unsigned 32-bit little-endian field of a record at byte offset `i`. -/
def u32At (c : Bytes) (i : Nat) : Nat := bytesToNatLE ((c.drop i).take 4)

/-- Unsigned 16-bit little-endian field of a record at byte offset `i`. -/
def u16At (c : Bytes) (i : Nat) : Nat := bytesToNatLE ((c.drop i).take 2)

/-- Signed 16-bit little-endian field of a record at byte offset `i`. -/
def i16At (c : Bytes) (i : Nat) : Int := toSigned16 (u16At c i)

/-- One `PLANES` record `'<ffffi'`: the normal and distance patterns (the
type field is read but unused). -/
structure PlaneRec where
  nx : Nat
  ny : Nat
  nz : Nat
  dist : Nat
deriving DecidableEq, Repr

/-- Decode one 20-byte plane record. -/
def decodePlane (c : Bytes) : PlaneRec :=
  ⟨u32At c 0, u32At c 4, u32At c 8, u32At c 12⟩

/-- Python list subscripting, with negative-index wrap-around and
IndexError beyond the bounds. -/
def pyIndex {α : Type} (l : List α) (i : Int) : Except VisErr α :=
  let j : Int := if i < 0 then (l.length : Int) + i else i
  if j < 0 then .error .indexError
  else
    match l.get? j.toNat with
    | some a => .ok a
    | none => .error .indexError

/-- One `NODES` record as the `(VisTree, neg_ind, pos_ind)` triple kept by
`vis_tree` (the face fields are read but not stored). -/
structure VisNodeRec where
  planeNorm : Nat × Nat × Nat
  planeDist : Nat
  mins : Int × Int × Int
  maxs : Int × Int × Int
  neg : Int
  pos : Int
deriving DecidableEq, Repr

/-- Decode one 32-byte node record `'<iii6hHHh2x'`, resolving its plane. -/
def decodeNode (planes : List PlaneRec) (c : Bytes) : Except VisErr VisNodeRec := do
  let planeInd := toSigned32 (u32At c 0)
  let neg := toSigned32 (u32At c 4)
  let pos := toSigned32 (u32At c 8)
  let p ← pyIndex planes planeInd
  .ok ⟨(p.nx, p.ny, p.nz), p.dist,
    (i16At c 12, i16At c 14, i16At c 16),
    (i16At c 18, i16At c 20, i16At c 22), neg, pos⟩

/-- A decoded leaf (class `VisLeaf`): `area` and `flags` are the masks the
constructor computes from `area_and_flags` (bsp.py lines 984-985). -/
structure VisLeafRec where
  id : Nat
  area : Int
  flags : Int
  mins : Int × Int × Int
  maxs : Int × Int × Int
  firstFace : Nat
  faceCount : Nat
  firstBrush : Nat
  brushCount : Nat
  waterId : Int
deriving DecidableEq, Repr

/-- Embedding of `VisLeaf.__init__`: `area` keeps bits 7..15 in place and `flags` keeps
bits 0..6 (`0b1111111110000000 = 65408`, `0b0000000001111111 = 127`). -/
def visLeafInit (i : Nat) (aaf : Int) (mins maxs : Int × Int × Int)
    (ff fc fb bc : Nat) (w : Int) : VisLeafRec :=
  ⟨i, Int.land aaf 65408, Int.land aaf 127, mins, maxs, ff, fc, fb, bc, w⟩

/-- Decode one leaf record (`'<ihh6h4Hh2x'`, with the contents and cluster
fields read but not stored); `area_and_flags` is the signed word at
offset 6. -/
def decodeLeaf (i : Nat) (c : Bytes) : VisLeafRec :=
  visLeafInit i (i16At c 6)
    ((i16At c 8, i16At c 10, i16At c 12))
    ((i16At c 14, i16At c 16, i16At c 18))
    (u16At c 20) (u16At c 22) (u16At c 24) (u16At c 26)
    (i16At c 28)

/-- The leaf-format selection (bsp.py lines 799-802): file versions at most
19 carry 26 extra ambient-light bytes per record; a plain integer version
has no `.value` attribute and raises before any leaf is decoded. -/
def leafFmtExtra : BSPVersion → Except VisErr Bool
  | .known v => .ok (decide (v.value ≤ 19))
  | .raw _ => .error .attributeError

/-- Decode the `LEAFS` lump with the version-selected record size. -/
def parseLeafs (extra : Bool) (ld : Bytes) : Except VisErr (List VisLeafRec) := do
  let cs ← iterUnpack (if extra then 58 else 32) ld
  .ok (cs.enum.map (fun p => decodeLeaf p.1 p.2))

/-- A child pointer in the linked tree: another node or a leaf. -/
inductive ChildRef
  | node (i : Nat)
  | leaf (i : Nat)
deriving DecidableEq, Repr

/-- The sentinel rule of the linking loop (bsp.py lines 822-830): a negative
child index `c` references `leafs[-1 - c]`, otherwise `nodes[c]`. -/
def resolveChild (nNodes nLeafs : Nat) (c : Int) : Except VisErr ChildRef :=
  if c < 0 then
    if (-1 - c).toNat < nLeafs then .ok (.leaf (-1 - c).toNat)
    else .error .indexError
  else
    if c.toNat < nNodes then .ok (.node c.toNat) else .error .indexError

/-- Install both children of every node. -/
def linkNodes (nodes : List VisNodeRec) (leafs : List VisLeafRec) :
    Except VisErr (List (ChildRef × ChildRef)) :=
  exceptMapM (fun n => do
    let a ← resolveChild nodes.length leafs.length n.neg
    let b ← resolveChild nodes.length leafs.length n.pos
    .ok (a, b)) nodes

/-- The reconstructed tree as an arena: nodes, leaves, the installed child
pairs, and the returned root. -/
structure VisResult where
  nodes : List VisNodeRec
  leafs : List VisLeafRec
  links : List (ChildRef × ChildRef)
  root : ChildRef
deriving DecidableEq, Repr

/-- Embedding of `BSP.vis_tree` over the raw `PLANES`, `NODES` and `LEAFS` lump bytes:
parse everything, then link, then return node 0. -/
def visTree (ver : BSPVersion) (pd nd ld : Bytes) : Except VisErr VisResult := do
  let pcs ← iterUnpack 20 pd
  let planes := pcs.map decodePlane
  let ncs ← iterUnpack 32 nd
  let nodes ← exceptMapM (decodeNode planes) ncs
  let extra ← leafFmtExtra ver
  let leafs ← parseLeafs extra ld
  let links ← linkNodes nodes leafs
  match nodes with
  | [] => .error .indexError
  | _ :: _ => .ok ⟨nodes, leafs, links, .node 0⟩

/-! ### Concrete inputs used by the claims -/

/-- The file described by the empty-BSP scenario: magic, version 20, 64
all-zero 16-byte directory entries, map revision 0.  It is 1036 bytes. -/
def emptyBspZeroDir : Bytes :=
  BSP_MAGIC ++ le32 20 ++ List.replicate 1024 0 ++ le32 0

/-- The canonical empty BSP as `BSP.save` emits it: every lump empty, the
`GAME_LUMP` payload holding the zero game-lump count at offset 1036 with
length 4, lumps written before it carrying offset 1036 and the rest
(including `PAKFILE`, written last) 1040.  It is 1040 bytes. -/
def emptyBsp1040 : Bytes :=
  BSP_MAGIC ++ le32 20 ++
    ((List.range 64).map (fun i =>
      le32 (if i < 36 then 1036 else 1040) ++ le32 (if i = 35 then 4 else 0) ++
        le32 0 ++ [0, 0, 0, 0])).flatten ++
    le32 0 ++ le32 0

/-- The parse of `emptyBsp1040`: version 20, 64 empty lumps, revision 0,
no game lumps. -/
def emptyBspState : BSPState :=
  ⟨.known .VER_20, List.replicate 64 ⟨0, [0, 0, 0, 0], []⟩, 0, []⟩

/-- Entity-lump text of a lone worldspawn entity followed by a newline:
the bytes of `{\n"classname" "worldspawn"\n}\n`. -/
def wsEntBytes : Bytes :=
  [123, 10] ++
    ([34] ++ classnameBytes ++ kvSepBytes ++ worldspawnBytes ++ [34, 10]) ++
    [125, 10]

/-- The VMF decoded from `wsEntBytes` terminated by the NUL line. -/
def wsVMF : VMF := ⟨⟨[(classnameBytes, worldspawnBytes)], []⟩, [], 0⟩

/-- The byte text `foo`. -/
def fooBytes : Bytes := [102, 111, 111]

/-- A value containing the byte 0x1D (= 29) and no commas: `a\x1Db`. -/
def gsValueBytes : Bytes := [97, 29, 98]

/-- An entity lump whose worldspawn carries the pair
`"foo" "a\x1Db"`: the value contains 0x1D, so the claim calls it an
output, while the code tests for 0x1B and stores it as a keyvalue. -/
def gsEntLump : Bytes :=
  [123, 10] ++
    ([34] ++ classnameBytes ++ kvSepBytes ++ worldspawnBytes ++ [34, 10]) ++
    ([34] ++ fooBytes ++ kvSepBytes ++ gsValueBytes ++ [34, 10]) ++
    [125, 10, 0]

/-- A single zeroed 20-byte `PLANES` record. -/
def onePlaneBytes : Bytes := List.replicate 20 0

/-- A single 32-byte `NODES` record: plane 0, both children `-1`, all
remaining fields zero. -/
def oneNodeBytes : Bytes :=
  le32 0 ++ [255, 255, 255, 255] ++ [255, 255, 255, 255] ++ List.replicate 20 0

/-- A single 32-byte `LEAFS` record whose `area_and_flags` word (offset 6)
is 128, all other fields zero. -/
def oneLeafBytes : Bytes :=
  List.replicate 6 0 ++ [128, 0] ++ List.replicate 24 0

/-- The arena decoded from the one-plane/one-node/one-leaf triple. -/
def oneVisResult : VisResult :=
  ⟨[⟨(0, 0, 0), 0, (0, 0, 0), (0, 0, 0), -1, -1⟩],
    [⟨0, 128, 0, (0, 0, 0), (0, 0, 0), 0, 0, 0, 0, 0⟩],
    [(.leaf 0, .leaf 0)], .node 0⟩

end Srctools

deriving instance DecidableEq for Except

namespace Srctools

/-! ## Theorems -/

/-- Helper: the real Python modulus by 360 lands in `[0, 360)`. -/
theorem pyModR_mem (x : ℝ) : 0 ≤ pyModR x 360 ∧ pyModR x 360 < 360 := by
  have h360 : (360 : ℝ) * (x / 360) = x := by field_simp
  have hfr : pyModR x 360 = 360 * Int.fract (x / 360) := by
    unfold pyModR Int.fract
    rw [mul_sub, h360]
  constructor
  · rw [hfr]
    have := Int.fract_nonneg (x / 360)
    positivity
  · rw [hfr]
    have := Int.fract_lt_one (x / 360)
    nlinarith [Int.fract_nonneg (x / 360)]

/-- Helper: the double modulus lands in `[0, 360)`. -/
theorem angNorm_mem (x : ℝ) : 0 ≤ angNorm x ∧ angNorm x < 360 :=
  pyModR_mem (pyModR x 360)

/-- Helper: every freshly constructed Angle satisfies the invariant. -/
theorem angleNew_normalized (p y r : ℝ) : (Angle.new p y r).normalized :=
  ⟨angNorm_mem p, angNorm_mem y, angNorm_mem r⟩

/-- C5: after any Angle mutation — construction, a pitch/yaw/roll setter,
indexed assignment, scalar multiplication or rotation composition — each
component lies in `[0, 360)`, every mutation normalising with the double
modulus `x % 360 % 360`. -/
theorem c5_angle_invariant (p y r s v : ℝ) (ix : AngleIx) (a b : Angle)
    (ha : a.normalized) (hb : b.normalized) :
    (Angle.new p y r).normalized ∧
    (a.setPitch v).normalized ∧
    (a.setYaw v).normalized ∧
    (a.setRoll v).normalized ∧
    (a.setItem ix v).normalized ∧
    (a.mulScalar s).normalized ∧
    (a.matmul b).normalized := by
  have _hb := hb
  refine ⟨angleNew_normalized p y r, ?_, ?_, ?_, ?_, ?_, ?_⟩
  · exact ⟨angNorm_mem v, ha.2.1, ha.2.2⟩
  · exact ⟨ha.1, angNorm_mem v, ha.2.2⟩
  · exact ⟨ha.1, ha.2.1, angNorm_mem v⟩
  · cases ix
    · exact ⟨angNorm_mem v, ha.2.1, ha.2.2⟩
    · exact ⟨ha.1, angNorm_mem v, ha.2.2⟩
    · exact ⟨ha.1, ha.2.1, angNorm_mem v⟩
  · exact angleNew_normalized _ _ _
  · unfold Angle.matmul Angle.rotateAngle Matrix3.toAngle
    dsimp only
    split
    · exact angleNew_normalized _ _ _
    · exact angleNew_normalized _ _ _

/-- C5 witness: the invariant instantiated at the zero angle, scalar 2,
value 7.5 and the pitch index. -/
theorem c5_angle_invariant_witness :
    (Angle.new 0 0 0).normalized ∧
    ((Angle.new 0 0 0).mulScalar 2).normalized ∧
    ((Angle.new 0 0 0).matmul (Angle.new 0 0 0)).normalized := by
  have hn := angleNew_normalized (0 : ℝ) 0 0
  have h := c5_angle_invariant 0 0 0 2 7.5 AngleIx.pitchIx
    (Angle.new 0 0 0) (Angle.new 0 0 0) hn hn
  exact ⟨h.1, h.2.2.2.2.2.1, h.2.2.2.2.2.2⟩

/-- C9 counterexample: a zero scalar divisor makes `/`, `//`, `%` and
`divmod` raise ZeroDivisionError rather than succeed, refuting the claim
that every Vec-with-scalar operation succeeds. -/
theorem c9_zero_divisor_counterexample :
    Vec.truediv ⟨1, 2, 3⟩ (.scalar 0) = .error .zeroDivision ∧
    Vec.floordiv ⟨1, 2, 3⟩ (.scalar 0) = .error .zeroDivision ∧
    Vec.mod ⟨1, 2, 3⟩ (.scalar 0) = .error .zeroDivision ∧
    Vec.divmod ⟨1, 2, 3⟩ (.scalar 0) = .error .zeroDivision ∧
    Vec.mul ⟨1, 2, 3⟩ (.scalar 0) = .ok ⟨0, 0, 0⟩ := by
  refine ⟨rfl, rfl, rfl, rfl, ?_⟩
  show Except.ok _ = _
  norm_num

/-- C9 (amended): `*`, `/`, `//`, `%` and `divmod` between two Vecs raise
the AmbiguousVectorProduct error, and with a nonzero scalar they succeed
componentwise (a zero divisor raises ZeroDivisionError; multiplication by
any scalar succeeds). -/
theorem c9_vec_scalar_ops (vx vy vz : ℚ) (w : Vec) (s : ℚ) (hs : s ≠ 0) :
    Vec.mul ⟨vx, vy, vz⟩ (.vec w) = .error .ambiguousVectorProduct ∧
    Vec.truediv ⟨vx, vy, vz⟩ (.vec w) = .error .ambiguousVectorProduct ∧
    Vec.floordiv ⟨vx, vy, vz⟩ (.vec w) = .error .ambiguousVectorProduct ∧
    Vec.mod ⟨vx, vy, vz⟩ (.vec w) = .error .ambiguousVectorProduct ∧
    Vec.divmod ⟨vx, vy, vz⟩ (.vec w) = .error .ambiguousVectorProduct ∧
    Vec.mul ⟨vx, vy, vz⟩ (.scalar s) = .ok ⟨vx * s, vy * s, vz * s⟩ ∧
    Vec.truediv ⟨vx, vy, vz⟩ (.scalar s) = .ok ⟨vx / s, vy / s, vz / s⟩ ∧
    Vec.floordiv ⟨vx, vy, vz⟩ (.scalar s) =
      .ok ⟨(⌊vx / s⌋ : ℤ), (⌊vy / s⌋ : ℤ), (⌊vz / s⌋ : ℤ)⟩ ∧
    Vec.mod ⟨vx, vy, vz⟩ (.scalar s) =
      .ok ⟨vx - s * ⌊vx / s⌋, vy - s * ⌊vy / s⌋, vz - s * ⌊vz / s⌋⟩ ∧
    Vec.divmod ⟨vx, vy, vz⟩ (.scalar s) =
      .ok (⟨(⌊vx / s⌋ : ℤ), (⌊vy / s⌋ : ℤ), (⌊vz / s⌋ : ℤ)⟩,
        ⟨vx - s * ⌊vx / s⌋, vy - s * ⌊vy / s⌋, vz - s * ⌊vz / s⌋⟩) := by
  refine ⟨rfl, rfl, rfl, rfl, rfl, rfl, ?_, ?_, ?_, ?_⟩ <;>
    simp [Vec.truediv, Vec.floordiv, Vec.mod, Vec.divmod, hs, pyFloorDiv, pyFloatMod]

/-- C9 witness: the scalar clauses instantiated at `(1, 2, 3)` with the
divisor 2, and the two-Vec clause at `(4, 5, 6)`. -/
theorem c9_vec_scalar_ops_witness :
    (2 : ℚ) ≠ 0 ∧
    Vec.mul ⟨1, 2, 3⟩ (.vec ⟨4, 5, 6⟩) = .error .ambiguousVectorProduct ∧
    Vec.truediv ⟨1, 2, 3⟩ (.scalar 2) =
      .ok ⟨(1 : ℚ) / 2, (2 : ℚ) / 2, (3 : ℚ) / 2⟩ := by
  have h := c9_vec_scalar_ops 1 2 3 ⟨4, 5, 6⟩ 2 (by norm_num)
  exact ⟨by norm_num, h.1, h.2.2.2.2.2.2.1⟩

/-- C2 counterexample: a value containing the byte 0x1D (and no commas) is
stored as a plain keyvalue on the worldspawn, not parsed as an output —
the code tests for byte 0x1B (27), not 0x1D (29). -/
theorem c2_sep_counterexample :
    (29 : Nat) ∈ gsValueBytes ∧ (27 : Nat) ∉ gsValueBytes ∧
    readEntData gsEntLump =
      .ok ⟨⟨[(classnameBytes, worldspawnBytes), (fooBytes, gsValueBytes)], []⟩,
        [], 0⟩ := by
  decide

/-- C2 (amended): for every keyvalue line of an open entity, the pair is
treated as an output exactly when the raw value contains byte 0x1B (27)
(failing the whole parse if the output does not parse); otherwise a value
with exactly 4 commas attempts an output parse and falls back to a plain
keyvalue; otherwise it is stored as a plain keyvalue. -/
theorem c2_output_disambiguation (st : EntState) (isSpawn : Bool) (e : Ent)
    (line key value : Bytes)
    (hcur : st.cur = some (isSpawn, e))
    (hsplit : pySplit kvSepBytes 2 line = [key, value])
    (hk : allAscii (key.drop 1) = true)
    (hv : allAscii (replaceEsc value.dropLast) = true) :
    processLine st line =
      (if 27 ∈ value then
        match outputParse (key.drop 1) (replaceEsc value.dropLast) with
        | some o => .ok (.cont { st with
            cur := some (isSpawn, { e with outs := e.outs ++ [o] }) })
        | none => .error .outputParseFailed
      else if value.count 44 = 4 then
        match outputParse (key.drop 1) (replaceEsc value.dropLast) with
        | some o => .ok (.cont { st with
            cur := some (isSpawn, { e with outs := e.outs ++ [o] }) })
        | none => .ok (.cont { st with
            cur := some (isSpawn,
              { e with keys := dictSet e.keys (key.drop 1) (replaceEsc value.dropLast) }) })
      else
        .ok (.cont { st with
          cur := some (isSpawn,
            { e with keys := dictSet e.keys (key.drop 1) (replaceEsc value.dropLast) }) })) := by
  have h123 : line ≠ [123] := by
    intro h; rw [h] at hsplit; simp [pySplit, findSub, kvSepBytes] at hsplit
  have h125 : line ≠ [125] := by
    intro h; rw [h] at hsplit; simp [pySplit, findSub, kvSepBytes] at hsplit
  have h0 : line ≠ [0] := by
    intro h; rw [h] at hsplit; simp [pySplit, findSub, kvSepBytes] at hsplit
  unfold processLine
  rw [if_neg h123, if_neg h125, if_neg h0, hcur]
  rw [hsplit]
  simp only [hk, hv, Bool.and_self, if_true]

/-- C2 witness: the 4-comma fallback branch on the line
`"f" "a,b,c,d,e"` of an open entity: the output parse fails (the delay
field is not a number), so the pair lands in the keyvalues. -/
theorem c2_output_disambiguation_witness :
    pySplit kvSepBytes 2 [34, 102, 34, 32, 34, 97, 44, 98, 44, 99, 44, 100, 44, 101, 34] =
      [[34, 102], [97, 44, 98, 44, 99, 44, 100, 44, 101, 34]] ∧
    processLine ⟨⟨[], []⟩, [], true, some (true, ⟨[], []⟩)⟩
        [34, 102, 34, 32, 34, 97, 44, 98, 44, 99, 44, 100, 44, 101, 34] =
      .ok (.cont ⟨⟨[], []⟩, [], true,
        some (true, ⟨[([102], [97, 44, 98, 44, 99, 44, 100, 44, 101])], []⟩)⟩) := by
  refine ⟨by decide, ?_⟩
  have h := c2_output_disambiguation ⟨⟨[], []⟩, [], true, some (true, ⟨[], []⟩)⟩
    true ⟨[], []⟩ [34, 102, 34, 32, 34, 97, 44, 98, 44, 99, 44, 100, 44, 101, 34]
    [34, 102] [97, 44, 98, 44, 99, 44, 100, 44, 101, 34]
    rfl (by decide) (by decide) (by decide)
  exact h.trans (by decide)

/-- C8 counterexample: data on a line after the final NUL does not make
`read_ent_data` fail; parsing returns the worldspawn-only VMF and ignores
the trailing junk. -/
theorem c8_trailing_data_counterexample :
    readEntData (wsEntBytes ++ [0, 10, 106, 117, 110, 107]) = .ok wsVMF := by
  decide

/-- C8 (amended): `read_ent_data` returns as soon as it meets a line that
is exactly the NUL byte, silently ignoring any data on later lines; only
trailing bytes on the same line as the NUL fail (here with the
keyvalue-outside-brackets error). -/
theorem c8_nul_termination :
    (∀ rest : Bytes, readEntData (wsEntBytes ++ 0 :: 10 :: rest) = .ok wsVMF) ∧
    readEntData (wsEntBytes ++ [0, 106, 117, 110, 107]) =
      .error .kvOutsideBrackets := by
  constructor
  · intro rest
    unfold readEntData
    have hl : pySplitlines (wsEntBytes ++ 0 :: 10 :: rest) =
        [123] :: [34, 99, 108, 97, 115, 115, 110, 97, 109, 101, 34, 32, 34,
          119, 111, 114, 108, 100, 115, 112, 97, 119, 110, 34] :: [125] :: [0] ::
          splitlinesAux rest [] := by
      simp [pySplitlines, wsEntBytes, classnameBytes, kvSepBytes, worldspawnBytes,
        splitlinesAux]
    rw [hl]
    have e1 : processLine initEntState [123] =
        .ok (.cont ⟨⟨[], []⟩, [], true, some (true, ⟨[], []⟩)⟩) := by decide
    have e2 : processLine ⟨⟨[], []⟩, [], true, some (true, ⟨[], []⟩)⟩
        [34, 99, 108, 97, 115, 115, 110, 97, 109, 101, 34, 32, 34,
          119, 111, 114, 108, 100, 115, 112, 97, 119, 110, 34] =
        .ok (.cont ⟨⟨[], []⟩, [], true,
          some (true, ⟨[(classnameBytes, worldspawnBytes)], []⟩)⟩) := by decide
    have e3 : processLine ⟨⟨[], []⟩, [], true,
        some (true, ⟨[(classnameBytes, worldspawnBytes)], []⟩)⟩ [125] =
        .ok (.cont ⟨⟨[(classnameBytes, worldspawnBytes)], []⟩, [], true, none⟩) := by
      decide
    have e4 : processLine ⟨⟨[(classnameBytes, worldspawnBytes)], []⟩, [], true, none⟩
        [0] = .ok (.done wsVMF) := by decide
    simp only [runLines, e1, e2, e3, e4]
  · decide

/-- Helper: bind on a successful `Except` value. -/
theorem ok_bind {ε α β : Type} (a : α) (f : α → Except ε β) :
    (Except.ok a >>= f : Except ε β) = f a := rfl

/-- Helper: destructuring a successful `Except` bind. -/
theorem except_bind_ok {ε α β : Type} {m : Except ε α} {f : α → Except ε β}
    {b : β} (h : (m >>= f) = .ok b) : ∃ a, m = .ok a ∧ f a = .ok b := by
  cases m with
  | error e => simp [Bind.bind, Except.bind] at h
  | ok a => exact ⟨a, rfl, by simpa [Bind.bind, Except.bind] using h⟩

set_option maxRecDepth 100000 in
/-- C1 counterexample: the empty BSP described by the claim — magic,
version 20, 64 all-zero 16-byte directory entries, map revision 0 — is
1036 bytes, not 400, and parsing it fails: the zero-length `GAME_LUMP`
leaves no room for the 4-byte game-lump count. -/
theorem c1_empty_bsp_counterexample :
    emptyBspZeroDir.length = 1036 ∧ emptyBspZeroDir.length ≠ 400 ∧
    bspRead none emptyBspZeroDir = .error .structError := by
  decide

set_option maxRecDepth 100000 in
/-- C1 (amended): the canonical 1040-byte empty BSP — all 64 lumps empty,
the `GAME_LUMP` entry pointing at a zero game-lump count, directory
offsets as `save` patches them — parses to a BSP whose 64 lumps all have
empty data and which has no game lumps, and saving that BSP reproduces
exactly the same 1040 bytes. -/
theorem c1_empty_bsp_roundtrip :
    emptyBsp1040.length = 1040 ∧
    bspRead none emptyBsp1040 = .ok emptyBspState ∧
    emptyBspState.lumps.length = 64 ∧
    (∀ l ∈ emptyBspState.lumps, l.data = []) ∧
    emptyBspState.gameLumps = [] ∧
    bspSave emptyBspState = .ok emptyBsp1040 := by
  decide

/-- C7: decoding the `sprp` game lump fails with the
UnsupportedStaticPropVersion error exactly when the lump's version is
below 4 or above 11; inside 4..11 the decode proceeds past the version
gate (any later failure is of a different kind). -/
theorem c7_static_prop_version_gate (flags ver : Nat) (data : Bytes)
    (rest : List GameLumpRec) :
    (staticProps (⟨sprpBytes, flags, ver, data⟩ :: rest) =
      .error .unsupportedStaticPropVersion) ↔ (ver < 4 ∨ 11 < ver) := by
  unfold staticProps glDictGet
  rw [List.find?_cons_of_pos _ (by simp)]
  by_cases h1 : 11 < ver
  · simp [h1]
  · by_cases h2 : ver < 4
    · simp [h1, h2]
    · simp only [if_neg (by omega : ¬ ver > 11), if_neg h2]
      cases hb : decodeStaticPropsBody ver data with
      | ok l => simp [hb]; omega
      | error e => simp [hb]; omega

/-- C10: a file version outside the named enumeration is stored as the
plain integer, and `vis_tree` on such a BSP fails with the
attribute-lookup error (`self.version.value` on an `int`) after the
planes and nodes parse but before any leaf is decoded, whatever the
`LEAFS` lump contains. -/
theorem c10_unknown_version_vis_tree (n : Int) (hn : versionOfInt n = none)
    (pd nd ld : Bytes) (pcs ncs : List Bytes) (nodes : List VisNodeRec)
    (hp : iterUnpack 20 pd = .ok pcs) (hq : iterUnpack 32 nd = .ok ncs)
    (hd : exceptMapM (decodeNode (pcs.map decodePlane)) ncs = .ok nodes) :
    adoptVersion n = .raw n ∧
    visTree (.raw n) pd nd ld = .error .attributeError := by
  constructor
  · unfold adoptVersion
    rw [hn]
  · unfold visTree
    simp only [hp, hq, hd, ok_bind]
    rfl

/-- C10 witness: version 25 is not a named version; with empty `PLANES`
and `NODES` lumps and a junk `LEAFS` lump, `vis_tree` raises the
attribute error. -/
theorem c10_unknown_version_vis_tree_witness :
    versionOfInt 25 = none ∧
    iterUnpack 20 [] = .ok [] ∧
    iterUnpack 32 [] = .ok [] ∧
    (adoptVersion 25 = .raw 25 ∧
      visTree (.raw 25) [] [] [1, 2, 3] = .error .attributeError) := by
  refine ⟨by decide, by decide, by decide, ?_⟩
  exact c10_unknown_version_vis_tree 25 (by decide) [] [] [1, 2, 3] [] [] []
    (by decide) (by decide) rfl

/-- Helper: a successful `exceptMapM` keeps the list length. -/
theorem exceptMapM_ok_length {ε α β : Type} (f : α → Except ε β) (l : List α) :
    ∀ r, exceptMapM f l = .ok r → r.length = l.length := by
  induction l with
  | nil =>
    intro r h
    simp [exceptMapM] at h
    subst h
    rfl
  | cons a rest ih =>
    intro r h
    unfold exceptMapM at h
    obtain ⟨b, hb, h2⟩ := except_bind_ok h
    obtain ⟨bs, hbs, h3⟩ := except_bind_ok h2
    injection h3 with h3
    subst h3
    simp [ih bs hbs]

/-- Helper: a successful `exceptMapM` maps each element to the result at
the same index. -/
theorem exceptMapM_ok_get {ε α β : Type} (f : α → Except ε β) (l : List α) :
    ∀ r, exceptMapM f l = .ok r → ∀ i a b, l.get? i = some a →
      r.get? i = some b → f a = .ok b := by
  induction l with
  | nil => intro r h i a b ha _; simp at ha
  | cons x rest ih =>
    intro r h i a b ha hb
    unfold exceptMapM at h
    obtain ⟨y, hy, h2⟩ := except_bind_ok h
    obtain ⟨ys, hys, h3⟩ := except_bind_ok h2
    injection h3 with h3
    subst h3
    cases i with
    | zero =>
      simp only [List.get?_cons_zero, Option.some.injEq] at ha hb
      subst ha; subst hb
      exact hy
    | succ j =>
      simp only [List.get?_cons_succ] at ha hb
      exact ih ys hys j a b ha hb

/-- Helper: what a successful `resolveChild` returns, by the sign of the
child index. -/
theorem resolveChild_ok_spec (nN nL : Nat) (c : Int) (r : ChildRef)
    (h : resolveChild nN nL c = .ok r) :
    (c < 0 → r = .leaf (-1 - c).toNat ∧ (-1 - c).toNat < nL) ∧
    (0 ≤ c → r = .node c.toNat ∧ c.toNat < nN) := by
  unfold resolveChild at h
  split_ifs at h with h1 h2 h3
  · injection h with h
    exact ⟨fun _ => ⟨h.symm, h2⟩, fun hc => absurd h1 (not_lt.mpr hc)⟩
  · injection h with h
    exact ⟨fun hc => absurd hc (by omega), fun _ => ⟨h.symm, h3⟩⟩

/-- C4: in every tree `vis_tree` returns, node 0 is the root, every node
carries a child link pair, and a child index `c` links to leaf `-1 - c`
when negative and to node `c` otherwise (in range); in particular a root
node record with `neg_child = -1` gets the leaf at index 0 as its
negative child. -/
theorem c4_vis_tree_linking (ver : BSPVersion) (pd nd ld : Bytes)
    (res : VisResult) (h : visTree ver pd nd ld = .ok res) :
    res.root = ChildRef.node 0 ∧
    res.links.length = res.nodes.length ∧
    (∀ i ni li, res.nodes.get? i = some ni → res.links.get? i = some li →
      (ni.neg < 0 → li.1 = .leaf (-1 - ni.neg).toNat ∧
        (-1 - ni.neg).toNat < res.leafs.length) ∧
      (0 ≤ ni.neg → li.1 = .node ni.neg.toNat ∧ ni.neg.toNat < res.nodes.length) ∧
      (ni.pos < 0 → li.2 = .leaf (-1 - ni.pos).toNat ∧
        (-1 - ni.pos).toNat < res.leafs.length) ∧
      (0 ≤ ni.pos → li.2 = .node ni.pos.toNat ∧ ni.pos.toNat < res.nodes.length)) ∧
    (∀ n0 l0, res.nodes.get? 0 = some n0 → res.links.get? 0 = some l0 →
      n0.neg = -1 → l0.1 = .leaf 0) := by
  unfold visTree at h
  obtain ⟨pcs, hp, h⟩ := except_bind_ok h
  obtain ⟨ncs, hq, h⟩ := except_bind_ok h
  obtain ⟨nodes, hnodes, h⟩ := except_bind_ok h
  obtain ⟨ex, hex, h⟩ := except_bind_ok h
  obtain ⟨leafs, hleafs, h⟩ := except_bind_ok h
  obtain ⟨links, hlinks, h⟩ := except_bind_ok h
  cases nodes with
  | nil => simp at h
  | cons n0 ns =>
    injection h with h
    subst h
    unfold linkNodes at hlinks
    have hlen := exceptMapM_ok_length _ _ _ hlinks
    have hget := exceptMapM_ok_get _ _ _ hlinks
    refine ⟨rfl, hlen, ?_, ?_⟩
    · intro i ni li hni hli
      have hf := hget i ni li hni hli
      obtain ⟨ca, hca, hf⟩ := except_bind_ok hf
      obtain ⟨cb, hcb, hf⟩ := except_bind_ok hf
      injection hf with hf
      subst hf
      have sa := resolveChild_ok_spec _ _ _ _ hca
      have sb := resolveChild_ok_spec _ _ _ _ hcb
      exact ⟨fun hc => sa.1 hc, fun hc => sa.2 hc,
        fun hc => sb.1 hc, fun hc => sb.2 hc⟩
    · intro n0' l0 h0 hl0 hneg
      have hf := hget 0 n0' l0 h0 hl0
      obtain ⟨ca, hca, hf⟩ := except_bind_ok hf
      obtain ⟨cb, hcb, hf⟩ := except_bind_ok hf
      injection hf with hf
      subst hf
      have sa := resolveChild_ok_spec _ _ _ _ hca
      have hres := (sa.1 (by rw [hneg]; norm_num)).1
      rw [hneg] at hres
      simpa using hres

/-- C4 witness: the one-plane/one-node/one-leaf triple with both child
indices `-1` yields the arena whose root is node 0 and whose only link
pair points at leaf 0 twice. -/
theorem c4_vis_tree_linking_witness :
    visTree (.known .VER_20) onePlaneBytes oneNodeBytes oneLeafBytes =
      .ok oneVisResult ∧
    oneVisResult.root = ChildRef.node 0 ∧
    oneVisResult.links.get? 0 = some (ChildRef.leaf 0, ChildRef.leaf 0) := by
  have h : visTree (.known .VER_20) onePlaneBytes oneNodeBytes oneLeafBytes =
      .ok oneVisResult := by decide
  exact ⟨h, (c4_vis_tree_linking _ _ _ _ _ h).1, by decide⟩

/-- Helper: masking against a shifted mask is shifting, masking and
shifting back. -/
theorem and_shiftLeft_mask (u m k : ℕ) :
    u &&& (m <<< k) = ((u >>> k) &&& m) <<< k := by
  apply Nat.eq_of_testBit_eq
  intro i
  simp only [Nat.testBit_and, Nat.testBit_shiftLeft, Nat.testBit_shiftRight]
  by_cases h : k ≤ i
  · rw [Nat.add_sub_cancel' h]
    simp [h, Bool.and_left_comm, Bool.and_comm, Bool.and_assoc]
  · simp [h]

/-- Helper: masking the signed 16-bit reading of a word with a mask below
2^16 equals masking the unsigned word. -/
theorem land_toSigned16 (u m : ℕ) (hu : u < 65536) (hm : m < 65536) :
    Int.land (toSigned16 u) (m : ℤ) = ((u &&& m : ℕ) : ℤ) := by
  unfold toSigned16
  by_cases h : u < 32768
  · rw [if_pos h]
    rfl
  · rw [if_neg h]
    have hns : (u : ℤ) - 65536 = Int.negSucc (65535 - u) := by
      rw [Int.negSucc_eq]
      push_cast [Nat.cast_sub (by omega : u ≤ 65535)]
      ring
    rw [hns]
    show ((Nat.ldiff m (65535 - u) : ℕ) : ℤ) = ((u &&& m : ℕ) : ℤ)
    norm_cast
    apply Nat.eq_of_testBit_eq
    intro i
    rw [Nat.testBit_ldiff]
    have h1 : 65535 - u = 2 ^ 16 - (u + 1) := by omega
    rw [h1, Nat.testBit_two_pow_sub_succ hu]
    by_cases hi : i < 16
    · simp [hi, Nat.testBit_and, Bool.and_comm]
    · have h16 : (65536 : ℕ) ≤ 2 ^ i := by
        calc (65536 : ℕ) = 2 ^ 16 := by norm_num
          _ ≤ 2 ^ i := Nat.pow_le_pow_right (by norm_num) (by omega)
      have hm' : Nat.testBit m i = false :=
        Nat.testBit_eq_false_of_lt (lt_of_lt_of_le hm h16)
      have hu' : Nat.testBit u i = false :=
        Nat.testBit_eq_false_of_lt (lt_of_lt_of_le hu h16)
      simp [hi, hm', hu', Nat.testBit_and]

/-- Helper: little-endian byte values are bounded by 256 to the length. -/
theorem bytesToNatLE_lt (l : Bytes) (hb : ∀ b ∈ l, b < 256) :
    bytesToNatLE l < 256 ^ l.length := by
  induction l with
  | nil => simp [bytesToNatLE]
  | cons b rest ih =>
    have hb0 : b < 256 := hb b (by simp)
    have hr := ih (fun x hx => hb x (by simp [hx]))
    simp only [bytesToNatLE, List.foldr_cons, List.length_cons] at *
    rw [pow_succ]
    nlinarith [hr]

/-- Helper: every byte of a chunk is a byte of the chunked list. -/
theorem mem_chunksExactAux (sz : Nat) :
    ∀ (fuel : Nat) (l c : Bytes), c ∈ chunksExactAux sz fuel l →
      ∀ b ∈ c, b ∈ l := by
  intro fuel
  induction fuel with
  | zero => intro l c hc; simp [chunksExactAux] at hc
  | succ n ih =>
    intro l c hc b hbc
    cases l with
    | nil => simp [chunksExactAux] at hc
    | cons x rest =>
      simp only [chunksExactAux, List.mem_cons] at hc
      rcases hc with hc | hc
      · subst hc
        exact List.mem_of_mem_take hbc
      · exact List.mem_of_mem_drop (ih _ _ hc b hbc)

/-- C3 counterexample: a leaf record whose `area_and_flags` word is 128
decodes to a `VisLeaf` whose `area` is 128 — bits 7..15 kept in place —
whereas the claim's shifted value `(area_and_flags >> 7) & 0x1FF` is 1. -/
theorem c3_area_shift_counterexample :
    (match visTree (.known .VER_20) onePlaneBytes oneNodeBytes oneLeafBytes with
      | .ok r => r.leafs.map (fun l => l.area)
      | .error _ => []) = [(128 : Int)] ∧
    Int.land ((128 : Int) >>> (7 : Int)) 511 = 1 ∧ (128 : Int) ≠ 1 := by
  refine ⟨by decide, by decide, by decide⟩

/-- C3 (amended): for every leaf record decoded by `vis_tree`, the
`VisLeaf`'s `area` field holds bits 7..15 of the record's
`area_and_flags` word kept in place — the claim's shifted value
`(area_and_flags >> 7) & 0x1FF` shifted back up by 7, equivalently the
unsigned word masked with 0xFF80 — and `flags` holds bits 0..6. -/
theorem c3_visleaf_area_flags (ver : BSPVersion) (pd nd ld : Bytes)
    (res : VisResult) (ex : Bool)
    (h : visTree ver pd nd ld = .ok res) (he : leafFmtExtra ver = .ok ex)
    (hb : isBytes ld) :
    ∀ i li, res.leafs.get? i = some li →
      ∃ c, (chunksExact (if ex then 58 else 32) ld).get? i = some c ∧
        li.area = ((((u16At c 6) >>> 7) &&& 511) <<< 7 : ℕ) ∧
        li.area = ((u16At c 6) &&& 65408 : ℕ) ∧
        li.flags = ((u16At c 6) &&& 127 : ℕ) := by
  unfold visTree at h
  obtain ⟨pcs, hp, h⟩ := except_bind_ok h
  obtain ⟨ncs, hq, h⟩ := except_bind_ok h
  obtain ⟨nodes, hnodes, h⟩ := except_bind_ok h
  obtain ⟨ex2, hex, h⟩ := except_bind_ok h
  rw [he] at hex
  injection hex with hex
  obtain ⟨leafs, hleafs, h⟩ := except_bind_ok h
  obtain ⟨links, hlinks, h⟩ := except_bind_ok h
  cases nodes with
  | nil => simp at h
  | cons n0 ns =>
    injection h with h
    subst h
    subst hex
    unfold parseLeafs at hleafs
    obtain ⟨cs, hcs, h2⟩ := except_bind_ok hleafs
    injection h2 with h2
    subst h2
    set sz : Nat := (if ex then 58 else 32) with hsz
    unfold iterUnpack at hcs
    by_cases hdvd : ld.length % sz = 0
    case neg => rw [if_neg hdvd] at hcs; exact absurd hcs (by simp)
    rw [if_pos hdvd] at hcs
    injection hcs with hcs
    subst hcs
    intro i li hli
    rw [List.get?_map, List.get?_enum] at hli
    rw [Option.map_map, Option.map_eq_some'] at hli
    obtain ⟨c, hc, hdec⟩ := hli
    simp only [Function.comp] at hdec
    subst hdec
    · have hcmem : c ∈ chunksExact sz ld := List.get?_mem hc
      have hcb : ∀ b ∈ c, b < 256 := by
        intro b hbc
        exact hb b (mem_chunksExactAux _ _ _ _ hcmem b hbc)
      have hu : u16At c 6 < 65536 := by
        unfold u16At
        have hlt := bytesToNatLE_lt ((c.drop 6).take 2) (by
          intro b hb2
          exact hcb b (List.mem_of_mem_drop (List.mem_of_mem_take hb2)))
        have hlen : ((c.drop 6).take 2).length ≤ 2 := by
          simp [List.length_take]
        calc bytesToNatLE ((c.drop 6).take 2)
            < 256 ^ ((c.drop 6).take 2).length := hlt
          _ ≤ 256 ^ 2 := Nat.pow_le_pow_right (by norm_num) hlen
          _ = 65536 := by norm_num
      have harea : (decodeLeaf i c).area = ((u16At c 6 &&& 65408 : ℕ) : ℤ) := by
        show Int.land (toSigned16 (u16At c 6)) 65408 = _
        have h65 : (65408 : ℤ) = ((65408 : ℕ) : ℤ) := by norm_cast
        rw [h65, land_toSigned16 _ _ hu (by norm_num)]
      have hflags : (decodeLeaf i c).flags = ((u16At c 6 &&& 127 : ℕ) : ℤ) := by
        show Int.land (toSigned16 (u16At c 6)) 127 = _
        have h127 : (127 : ℤ) = ((127 : ℕ) : ℤ) := by norm_cast
        rw [h127, land_toSigned16 _ _ hu (by norm_num)]
      refine ⟨c, hc, ?_, harea, hflags⟩
      rw [harea]
      norm_cast
      have hsh : (65408 : ℕ) = 511 <<< 7 := by decide
      rw [hsh, and_shiftLeft_mask]

/-- C3 witness: the amended mask relation instantiated on the one-leaf
lump whose `area_and_flags` word is 128. -/
theorem c3_visleaf_area_flags_witness :
    leafFmtExtra (.known .VER_20) = .ok false ∧
    isBytes oneLeafBytes ∧
    oneVisResult.leafs.get? 0 =
      some ⟨0, 128, 0, (0, 0, 0), (0, 0, 0), 0, 0, 0, 0, 0⟩ ∧
    (128 : Int) = ((((u16At oneLeafBytes 6) >>> 7) &&& 511) <<< 7 : ℕ) := by
  refine ⟨by decide, by decide, by decide, ?_⟩
  have h := c3_visleaf_area_flags (.known .VER_20) onePlaneBytes oneNodeBytes
    oneLeafBytes oneVisResult false (by decide) (by decide) (by decide)
  obtain ⟨c, hc, h1, h2, h3⟩ :=
    h 0 ⟨0, 128, 0, (0, 0, 0), (0, 0, 0), 0, 0, 0, 0, 0⟩ (by decide)
  have hc2 : (chunksExact (if false then 58 else 32) oneLeafBytes).get? 0 =
      some oneLeafBytes := by decide
  rw [hc] at hc2
  injection hc2 with hc2
  subst hc2
  exact h1

/-- Helper: decoding the little-endian bytes of a 16-bit value. -/
theorem bytesToNatLE_le16 (n : Nat) (h : n < 65536) : bytesToNatLE (le16 n) = n := by
  unfold le16 bytesToNatLE
  simp only [List.foldr_cons, List.foldr_nil]
  omega

/-- Helper: decoding the little-endian bytes of a 32-bit value. -/
theorem bytesToNatLE_le32 (n : Nat) (h : n < 4294967296) :
    bytesToNatLE (le32 n) = n := by
  unfold le32 bytesToNatLE
  simp only [List.foldr_cons, List.foldr_nil]
  omega

/-- Helper: values below 2^31 read back as themselves. -/
theorem toSigned32_small (n : Nat) (h : n < 2147483648) :
    toSigned32 n = (n : Int) := by
  unfold toSigned32
  rw [if_pos (by exact_mod_cast h)]

/-- Helper: an exact read at a position whose suffix is known. -/
theorem takeExact_of_drop (l : Bytes) (pos n : Nat) (A rest : Bytes)
    (hd : l.drop pos = A ++ rest) (hA : A.length = n) (hlen : pos + n ≤ l.length) :
    takeExact l pos n = some A := by
  unfold takeExact
  rw [if_pos hlen, hd, ← hA, List.take_left]

/-- Helper: dropping a prefix of known length. -/
theorem drop_left_len (A B : Bytes) (n : Nat) (h : A.length = n) :
    (A ++ B).drop n = B := by
  rw [← h]
  exact List.drop_left A B

/-- Helper: mapping over a successful `Except` value. -/
theorem ok_map {ε α β : Type} (f : α → β) (a : α) :
    (Except.ok a : Except ε α).map f = .ok (f a) := rfl

/-- C6: `save` stores a game lump's 4-byte id byte-reversed in the
on-disk directory entry, and the read loop reverses the stored bytes
back, so reading an entry written for any in-memory id restores that id
(the payload being read from the patched absolute offset). -/
theorem c6_gamelump_id_roundtrip (g : GameLumpRec) (off : Nat)
    (h4 : g.id.length = 4) (hf : g.flags < 65536) (hv : g.version < 65536)
    (hl : g.data.length < 2147483648) (ho : off < 2147483648) :
    packGameLumpDirEntry g off =
      .ok (g.id.reverse ++ (le16 g.flags ++ (le16 g.version ++
        (le32 off ++ le32 g.data.length)))) ∧
    (g.id.reverse ++ (le16 g.flags ++ (le16 g.version ++
        (le32 off ++ le32 g.data.length)))).take 4 = g.id.reverse ∧
    (∀ extra file : Bytes,
      readGameLump file ((g.id.reverse ++ (le16 g.flags ++ (le16 g.version ++
        (le32 off ++ le32 g.data.length)))) ++ extra) 0 =
        .ok ⟨g.id, g.flags, g.version, (file.drop off).take g.data.length⟩) := by
  have hrev4 : g.id.reverse.length = 4 := by simp [h4]
  have hpack : pack4s g.id.reverse = g.id.reverse := by
    unfold pack4s
    rw [hrev4]
    simp only [List.replicate, List.append_nil]
    rw [← hrev4, List.take_length]
  have e1 : packU16 g.flags = .ok (le16 g.flags) := by
    unfold packU16; rw [if_pos hf]
  have e2 : packU16 g.version = .ok (le16 g.version) := by
    unfold packU16; rw [if_pos hv]
  have emod : ∀ m : Nat, m < 2147483648 → ((m : Int) % 4294967296).toNat = m := by
    intro m hm; omega
  have e3 : packI32 (off : Int) = .ok (le32 off) := by
    unfold packI32
    rw [if_pos ⟨by omega, by exact_mod_cast ho⟩, emod off ho]
  have e4 : packI32 (g.data.length : Int) = .ok (le32 g.data.length) := by
    unfold packI32
    rw [if_pos ⟨by omega, by exact_mod_cast hl⟩, emod _ hl]
  have hbs : packGameLumpDirEntry g off =
      .ok (g.id.reverse ++ (le16 g.flags ++ (le16 g.version ++
        (le32 off ++ le32 g.data.length)))) := by
    unfold packGameLumpDirEntry
    simp only [e1, e2, e3, e4, ok_bind, hpack, List.append_assoc]
  refine ⟨hbs, ?_, ?_⟩
  · rw [← hrev4, List.take_left]
  · intro extra file
    set L : Bytes := (g.id.reverse ++ (le16 g.flags ++ (le16 g.version ++
      (le32 off ++ le32 g.data.length)))) ++ extra with hL
    have hLassoc : L = g.id.reverse ++ (le16 g.flags ++ (le16 g.version ++
        (le32 off ++ (le32 g.data.length ++ extra)))) := by
      rw [hL]; simp [List.append_assoc]
    have hLlen : 16 + extra.length ≤ L.length := by
      rw [hLassoc]
      simp [List.length_append, hrev4, le16, le32]
      omega
    have d0 : L.drop 0 = g.id.reverse ++ (le16 g.flags ++ (le16 g.version ++
        (le32 off ++ (le32 g.data.length ++ extra)))) := by
      rw [List.drop_zero, hLassoc]
    have d4 : L.drop 4 = le16 g.flags ++ (le16 g.version ++
        (le32 off ++ (le32 g.data.length ++ extra))) := by
      rw [hLassoc]
      exact drop_left_len _ _ _ hrev4
    have d6 : L.drop 6 = le16 g.version ++ (le32 off ++ (le32 g.data.length ++ extra)) := by
      have h62 : L.drop 6 = (L.drop 4).drop 2 := by rw [List.drop_drop]
      rw [h62, d4]
      exact drop_left_len _ _ _ rfl
    have d8 : L.drop 8 = le32 off ++ (le32 g.data.length ++ extra) := by
      have h82 : L.drop 8 = (L.drop 6).drop 2 := by rw [List.drop_drop]
      rw [h82, d6]
      exact drop_left_len _ _ _ rfl
    have d12 : L.drop 12 = le32 g.data.length ++ extra := by
      have h124 : L.drop 12 = (L.drop 8).drop 4 := by rw [List.drop_drop]
      rw [h124, d8]
      exact drop_left_len _ _ _ rfl
    have t0 : takeExact L 0 4 = some g.id.reverse :=
      takeExact_of_drop L 0 4 _ _ d0 hrev4 (by omega)
    have t4 : takeExact L 4 2 = some (le16 g.flags) :=
      takeExact_of_drop L 4 2 _ _ d4 rfl (by omega)
    have t6 : takeExact L 6 2 = some (le16 g.version) :=
      takeExact_of_drop L 6 2 _ _ d6 rfl (by omega)
    have t8 : takeExact L 8 4 = some (le32 off) :=
      takeExact_of_drop L 8 4 _ _ d8 rfl (by omega)
    have t12 : takeExact L 12 4 = some (le32 g.data.length) :=
      takeExact_of_drop L 12 4 _ _ d12 rfl (by omega)
    have r4 : readU L 4 2 = .ok g.flags := by
      unfold readU; rw [t4]; simp [bytesToNatLE_le16 _ hf]
    have r6 : readU L 6 2 = .ok g.version := by
      unfold readU; rw [t6]; simp [bytesToNatLE_le16 _ hv]
    have r8 : readU L 8 4 = .ok off := by
      unfold readU; rw [t8]
      simp [bytesToNatLE_le32 off (by omega : off < 4294967296)]
    have r12 : readU L 12 4 = .ok g.data.length := by
      unfold readU; rw [t12]
      simp [bytesToNatLE_le32 g.data.length (by omega : g.data.length < 4294967296)]
    have hno : ¬ ((off : Int) < 0) := by omega
    have hn1 : ¬ ((g.data.length : Int) = -1) := by omega
    have hn2 : ¬ ((g.data.length : Int) < 0) := by omega
    unfold readGameLump parseGameLumpEntryRaw readU16 readI32 fileRead
    rw [t0]
    simp only [Nat.zero_add, r4, r6, r8, r12, ok_bind, ok_map,
      toSigned32_small off ho, toSigned32_small g.data.length hl,
      if_neg hno, if_neg hn1, if_neg hn2]
    simp [List.reverse_reverse, Int.toNat_natCast]

/-- C6 witness: the round trip instantiated on the id `sprp` with flags 7,
version 6, empty data and offset 1044. -/
theorem c6_gamelump_id_roundtrip_witness :
    sprpBytes.length = 4 ∧
    packGameLumpDirEntry ⟨sprpBytes, 7, 6, []⟩ 1044 =
      .ok (sprpBytes.reverse ++ (le16 7 ++ (le16 6 ++ (le32 1044 ++ le32 0)))) ∧
    readGameLump [9, 9] ((sprpBytes.reverse ++ (le16 7 ++ (le16 6 ++
        (le32 1044 ++ le32 0)))) ++ []) 0 =
      .ok ⟨sprpBytes, 7, 6, (([9, 9] : Bytes).drop 1044).take 0⟩ := by
  have h := c6_gamelump_id_roundtrip ⟨sprpBytes, 7, 6, []⟩ 1044 (by decide)
    (by decide) (by decide) (by decide) (by decide)
  exact ⟨by decide, h.1, h.2.2 [] [9, 9]⟩

end Srctools
